import Mathlib

/-!
# Verification of the brainrot-cv classification-and-stabilization engine

Shallow embedding of the core of the repository:

* `gestures.ts`   — hand geometry helpers, the nine gesture rules, and the
  `GestureDetector` class (majority-vote smoothing + hold/debounce stabilizer);
* `detection.ts`  — face geometry helpers, the fourteen expression rules, and
  the `ExpressionDetector` class (structurally identical stabilizer);
* `config.ts`     — the `CONFIG` constant and the category enumerations;
* `memePool.ts`   — `getRandomMeme` and the per-category recent-history buffers.

Conventions of the embedding:

* JavaScript numbers are modelled as real numbers (`ℝ`) for landmark
  coordinates and confidences, and as integers (`ℤ`) for the millisecond
  timestamps produced by `Date.now()`, which `analyze` receives here as an
  explicit `now` argument.
* `landmarks[i]` indexing that the source guards with a falsiness check is
  modelled with `List.getElem?` pattern matches; the handful of unguarded
  accesses (only reachable after the length guard) use `lmAt` with a dummy
  default.
* `Math.random()` outcomes are passed to `getRandomMeme` as an explicit
  rational draw `r` with the contract `0 ≤ r < 1`.
-/

open scoped Classical

noncomputable section

/-- A landmark point in normalized image space (the `Landmark` interface shared by
`detection.ts` and `gestures.ts`).  The optional `z` is never read by any rule. -/
structure Landmark where
  x : ℝ
  y : ℝ
  z : Option ℝ := Option.none

/-- `ExpressionType` from `config.ts`: 14 named expressions plus the `neutral` default. -/
inductive ExpressionType
  | shock | scream | tongue | happy | sad
  | wink | glare | suspicious | sleepy
  | eyebrow | confused | pout | disgust | kissy | neutral
deriving DecidableEq

/-- `GestureType` from `config.ts`: 9 named gestures plus the `none` default. -/
inductive GestureType
  | middleFinger | thumbsUp | thumbsDown | peace
  | ok | rockOn | wave | fist | pointing | none
deriving DecidableEq

/-- The `CONFIG.transitions` table from `config.ts`. -/
structure TransitionsConfig where
  holdTime : ℤ
  debounce : ℤ
  crossfadeDuration : ℤ
  historyLength : ℕ

/-- `CONFIG.transitions`: hold 300 ms, debounce 500 ms, history window 10 frames. -/
def CONFIG_transitions : TransitionsConfig :=
  { holdTime := 300, debounce := 500, crossfadeDuration := 300, historyLength := 10 }

/-- The `CONFIG.thresholds` table from `config.ts`. -/
structure ThresholdsConfig where
  eyeOpening : ℝ
  mouthOpen : ℝ
  squinting : ℝ
  smile : ℝ
  browRaise : ℝ
  winkRatio : ℝ
  puckerRatio : ℝ
  sleepyThreshold : ℝ

/-- `CONFIG.thresholds` with the tuned values from `config.ts`. -/
def CONFIG_thresholds : ThresholdsConfig :=
  { eyeOpening := 0.03, mouthOpen := 0.025, squinting := 0.018, smile := 0.012,
    browRaise := 0.01, winkRatio := 0.6, puckerRatio := 0.25, sleepyThreshold := 0.018 }

/-- A per-frame classification result: the `GestureResult` / `DetectionResult`
interfaces of the source, with the category field (`gesture` / `expression`)
renamed uniformly to `category`. -/
structure RawResult (α : Type) where
  category : α
  confidence : ℝ

/-- Unguarded array access `landmarks[i]` (used by the source only at spots that the
`landmarks.length` guard has already made safe); out-of-range indices yield a dummy
point, which is unreachable at every call site below. -/
def lmAt (landmarks : List Landmark) (i : ℕ) : Landmark :=
  (landmarks[i]?).getD ⟨0, 0, Option.none⟩

/-! ## Hand geometry (`gestures.ts`)

MediaPipe hand landmark indices used below: WRIST 0, THUMB_MCP 2, THUMB_IP 3,
THUMB_TIP 4, INDEX_MCP 5, INDEX_PIP 6, INDEX_TIP 8, MIDDLE_MCP 9, MIDDLE_PIP 10,
MIDDLE_TIP 12, RING_MCP 13, RING_PIP 14, RING_TIP 16, PINKY_MCP 17, PINKY_PIP 18,
PINKY_TIP 20. -/

/-- `isFingerExtended`: the tip must sit at least 0.02 above the PIP joint
(y grows downward); a missing landmark yields `false`. -/
def isFingerExtended (landmarks : List Landmark) (tipIdx pipIdx mcpIdx : ℕ) : Prop :=
  match landmarks[tipIdx]?, landmarks[pipIdx]?, landmarks[mcpIdx]? with
  | some tip, some pip, some _mcp => tip.y < pip.y - 0.02
  | _, _, _ => False

/-- `isThumbExtended`: horizontal distance of the thumb tip from the palm centre must
beat the MCP's distance by the factor 1.2.  The palm centre reads landmarks 5 and 17
without a guard in the source. -/
def isThumbExtended (landmarks : List Landmark) : Prop :=
  match landmarks[4]?, landmarks[3]?, landmarks[2]?, landmarks[0]? with
  | some tip, some _ip, some mcp, some _wrist =>
      |tip.x - ((lmAt landmarks 5).x + (lmAt landmarks 17).x) / 2| >
        |mcp.x - ((lmAt landmarks 5).x + (lmAt landmarks 17).x) / 2| * 1.2
  | _, _, _, _ => False

/-- `isThumbUp`: thumb tip at least 0.1 above the wrist, and the thumb extended. -/
def isThumbUp (landmarks : List Landmark) : Prop :=
  match landmarks[4]?, landmarks[2]?, landmarks[0]? with
  | some tip, some _mcp, some wrist => tip.y < wrist.y - (0.1 : ℝ) ∧ isThumbExtended landmarks
  | _, _, _ => False

/-- `isThumbDown`: thumb tip at least 0.1 below the wrist, and the thumb extended. -/
def isThumbDown (landmarks : List Landmark) : Prop :=
  match landmarks[4]?, landmarks[0]? with
  | some tip, some wrist => tip.y > wrist.y + (0.1 : ℝ) ∧ isThumbExtended landmarks
  | _, _ => False

/-- The record returned by `getFingerStates`. -/
structure FingerStates where
  thumb : Prop
  index : Prop
  middle : Prop
  ring : Prop
  pinky : Prop

/-- `getFingerStates`: per-digit extension flags. -/
def getFingerStates (landmarks : List Landmark) : FingerStates :=
  { thumb := isThumbExtended landmarks
    index := isFingerExtended landmarks 8 6 5
    middle := isFingerExtended landmarks 12 10 9
    ring := isFingerExtended landmarks 16 14 13
    pinky := isFingerExtended landmarks 20 18 17 }

namespace GestureDetector

/-- `detectMiddleFinger`: only the middle finger extended. -/
def detectMiddleFinger (landmarks : List Landmark) : Option (RawResult GestureType) :=
  let fingers := getFingerStates landmarks
  if fingers.middle ∧ ¬fingers.index ∧ ¬fingers.ring ∧ ¬fingers.pinky ∧ ¬fingers.thumb then
    some ⟨GestureType.middleFinger, 0.9⟩
  else Option.none

/-- `detectPeace`: index and middle extended, ring and pinky curled. -/
def detectPeace (landmarks : List Landmark) : Option (RawResult GestureType) :=
  let fingers := getFingerStates landmarks
  if fingers.index ∧ fingers.middle ∧ ¬fingers.ring ∧ ¬fingers.pinky then
    some ⟨GestureType.peace, 0.85⟩
  else Option.none

/-- `detectThumbsUp`: thumb up, other four digits curled. -/
def detectThumbsUp (landmarks : List Landmark) : Option (RawResult GestureType) :=
  let fingers := getFingerStates landmarks
  if isThumbUp landmarks ∧ ¬fingers.index ∧ ¬fingers.middle ∧ ¬fingers.ring ∧ ¬fingers.pinky then
    some ⟨GestureType.thumbsUp, 0.9⟩
  else Option.none

/-- `detectThumbsDown`: thumb down, other four digits curled. -/
def detectThumbsDown (landmarks : List Landmark) : Option (RawResult GestureType) :=
  let fingers := getFingerStates landmarks
  if isThumbDown landmarks ∧ ¬fingers.index ∧ ¬fingers.middle ∧ ¬fingers.ring ∧ ¬fingers.pinky then
    some ⟨GestureType.thumbsDown, 0.9⟩
  else Option.none

/-- `detectOK`: thumb tip close to index tip (distance below 0.05), the remaining
three fingers extended. -/
def detectOK (landmarks : List Landmark) : Option (RawResult GestureType) :=
  match landmarks[4]?, landmarks[8]? with
  | some thumbTip, some indexTip =>
      let fingers := getFingerStates landmarks
      if Real.sqrt ((thumbTip.x - indexTip.x) ^ 2 + (thumbTip.y - indexTip.y) ^ 2) < 0.05 ∧
          fingers.middle ∧ fingers.ring ∧ fingers.pinky then
        some ⟨GestureType.ok, 0.85⟩
      else Option.none
  | _, _ => Option.none

/-- `detectRockOn`: index and pinky extended, middle and ring curled. -/
def detectRockOn (landmarks : List Landmark) : Option (RawResult GestureType) :=
  let fingers := getFingerStates landmarks
  if fingers.index ∧ fingers.pinky ∧ ¬fingers.middle ∧ ¬fingers.ring then
    some ⟨GestureType.rockOn, 0.85⟩
  else Option.none

/-- `detectWave`: all five digits extended. -/
def detectWave (landmarks : List Landmark) : Option (RawResult GestureType) :=
  let fingers := getFingerStates landmarks
  if fingers.thumb ∧ fingers.index ∧ fingers.middle ∧ fingers.ring ∧ fingers.pinky then
    some ⟨GestureType.wave, 0.8⟩
  else Option.none

/-- `detectFist`: all five digits curled. -/
def detectFist (landmarks : List Landmark) : Option (RawResult GestureType) :=
  let fingers := getFingerStates landmarks
  if ¬fingers.thumb ∧ ¬fingers.index ∧ ¬fingers.middle ∧ ¬fingers.ring ∧ ¬fingers.pinky then
    some ⟨GestureType.fist, 0.8⟩
  else Option.none

/-- `detectPointing`: only the index finger extended (thumb unconstrained). -/
def detectPointing (landmarks : List Landmark) : Option (RawResult GestureType) :=
  let fingers := getFingerStates landmarks
  if fingers.index ∧ ¬fingers.middle ∧ ¬fingers.ring ∧ ¬fingers.pinky then
    some ⟨GestureType.pointing, 0.85⟩
  else Option.none

end GestureDetector

/-- The source's `for (const detect of detectors) { ... break }` loop:
return the first non-null entry. -/
def firstSome {β : Type} : List (Option β) → Option β
  | [] => Option.none
  | some r :: _ => some r
  | Option.none :: rest => firstSome rest

namespace GestureDetector

/-- The `detectors` array from `GestureDetector.analyze`, in the source's
priority order. -/
def gestureRules : List (List Landmark → Option (RawResult GestureType)) :=
  [detectMiddleFinger, detectThumbsUp, detectThumbsDown, detectPeace, detectOK,
   detectRockOn, detectPointing, detectWave, detectFist]

/-- The raw per-frame classification of `GestureDetector.analyze`: first matching rule,
or `none` at confidence 0. -/
def rawGesture (landmarks : List Landmark) : RawResult GestureType :=
  (firstSome (gestureRules.map (fun d => d landmarks))).getD ⟨GestureType.none, 0⟩

end GestureDetector

/-! ## Face geometry and expression rules (`detection.ts`)

MediaPipe face-mesh indices used below: LEFT_EYE_TOP 159, LEFT_EYE_BOTTOM 145,
RIGHT_EYE_TOP 386, RIGHT_EYE_BOTTOM 374, LEFT_BROW_TOP 63, RIGHT_BROW_TOP 293,
UPPER_LIP_TOP 13, LOWER_LIP_BOTTOM 14, MOUTH_LEFT 61, MOUTH_RIGHT 291,
LOWER_LIP_CENTER 17, NOSE_TIP 4, CHIN 152. -/

namespace ExpressionDetector

/-- `getDistance`: Euclidean distance between two landmark indices, 0 when either
is missing. -/
def getDistance (landmarks : List Landmark) (idx1 idx2 : ℕ) : ℝ :=
  match landmarks[idx1]?, landmarks[idx2]? with
  | some p1, some p2 => Real.sqrt ((p2.x - p1.x) ^ 2 + (p2.y - p1.y) ^ 2)
  | _, _ => 0

/-- `getEyeOpening`: average of the two eyelid distances. -/
def getEyeOpening (landmarks : List Landmark) : ℝ :=
  (getDistance landmarks 159 145 + getDistance landmarks 386 374) / 2

/-- `getIndividualEyeOpenings`: the pair of per-eye openings (left, right). -/
def getIndividualEyeOpenings (landmarks : List Landmark) : ℝ × ℝ :=
  (getDistance landmarks 159 145, getDistance landmarks 386 374)

/-- `getMouthOpening`: distance between upper-lip top and lower-lip bottom. -/
def getMouthOpening (landmarks : List Landmark) : ℝ :=
  getDistance landmarks 13 14

/-- `getMouthWidth`: distance between the mouth corners. -/
def getMouthWidth (landmarks : List Landmark) : ℝ :=
  getDistance landmarks 61 291

/-- `getSmileRatio`: upper-lip y minus the average corner y (positive when the
corners sit below the lip, i.e. a smile under the downward-growing y convention);
0 when a landmark is missing. -/
def getSmileRatio (landmarks : List Landmark) : ℝ :=
  match landmarks[61]?, landmarks[291]?, landmarks[13]? with
  | some leftCorner, some rightCorner, some upperLip =>
      upperLip.y - (leftCorner.y + rightCorner.y) / 2
  | _, _, _ => 0

/-- `getEyebrowHeight`: average of (eye-top y − brow-top y) over both sides;
0 when a landmark is missing. -/
def getEyebrowHeight (landmarks : List Landmark) : ℝ :=
  match landmarks[63]?, landmarks[293]?, landmarks[159]?, landmarks[386]? with
  | some leftBrow, some rightBrow, some leftEye, some rightEye =>
      ((leftEye.y - leftBrow.y) + (rightEye.y - rightBrow.y)) / 2
  | _, _, _, _ => 0

/-- `getMouthPuckerRatio`: mouth opening over mouth width, 0 on zero width. -/
def getMouthPuckerRatio (landmarks : List Landmark) : ℝ :=
  if getMouthWidth landmarks > 0 then getMouthOpening landmarks / getMouthWidth landmarks
  else 0

/-- `detectScream`: wide eyes, very open mouth, raised brows. -/
def detectScream (landmarks : List Landmark) : Option (RawResult ExpressionType) :=
  if getEyeOpening landmarks > CONFIG_thresholds.eyeOpening * 0.9 ∧
      getMouthOpening landmarks > CONFIG_thresholds.mouthOpen * 2.5 ∧
      getEyebrowHeight landmarks > CONFIG_thresholds.browRaise then
    some ⟨ExpressionType.scream,
      min ((getMouthOpening landmarks / (CONFIG_thresholds.mouthOpen * 2.5) +
        getEyeOpening landmarks / CONFIG_thresholds.eyeOpening) / 2) 1⟩
  else Option.none

/-- `detectShock`: wide eyes, mouth not too open, brows raised. -/
def detectShock (landmarks : List Landmark) : Option (RawResult ExpressionType) :=
  if getEyeOpening landmarks > CONFIG_thresholds.eyeOpening ∧
      getMouthOpening landmarks < CONFIG_thresholds.mouthOpen * 2 ∧
      getEyebrowHeight landmarks > CONFIG_thresholds.browRaise * 0.8 then
    some ⟨ExpressionType.shock, min (getEyeOpening landmarks / CONFIG_thresholds.eyeOpening) 1⟩
  else Option.none

/-- `detectTongue`: open mouth with eyes not overly wide. -/
def detectTongue (landmarks : List Landmark) : Option (RawResult ExpressionType) :=
  if getMouthOpening landmarks > CONFIG_thresholds.mouthOpen ∧
      getEyeOpening landmarks < CONFIG_thresholds.eyeOpening * 1.5 then
    some ⟨ExpressionType.tongue, min (getMouthOpening landmarks / CONFIG_thresholds.mouthOpen) 1⟩
  else Option.none

/-- `detectKissy`: puckered, narrow mouth. -/
def detectKissy (landmarks : List Landmark) : Option (RawResult ExpressionType) :=
  if getMouthPuckerRatio landmarks > CONFIG_thresholds.puckerRatio ∧
      getMouthWidth landmarks < 0.08 then
    some ⟨ExpressionType.kissy, min (getMouthPuckerRatio landmarks / 0.5) 1⟩
  else Option.none

/-- `detectHappy`: smiling corners with a mostly closed mouth. -/
def detectHappy (landmarks : List Landmark) : Option (RawResult ExpressionType) :=
  if getSmileRatio landmarks > CONFIG_thresholds.smile ∧
      getMouthOpening landmarks < CONFIG_thresholds.mouthOpen * 1.5 then
    some ⟨ExpressionType.happy, min (getSmileRatio landmarks / CONFIG_thresholds.smile) 1⟩
  else Option.none

/-- `detectSad`: drooping corners with low brows. -/
def detectSad (landmarks : List Landmark) : Option (RawResult ExpressionType) :=
  if getSmileRatio landmarks < -CONFIG_thresholds.smile * 0.5 ∧
      getEyebrowHeight landmarks < CONFIG_thresholds.browRaise * 0.5 then
    some ⟨ExpressionType.sad, min (|getSmileRatio landmarks| / CONFIG_thresholds.smile) 1⟩
  else Option.none

/-- `detectWink`: strong left/right eye-opening asymmetry with one eye clearly open. -/
def detectWink (landmarks : List Landmark) : Option (RawResult ExpressionType) :=
  let eyes := getIndividualEyeOpenings landmarks
  if min eyes.1 eyes.2 / max eyes.1 eyes.2 < CONFIG_thresholds.winkRatio ∧
      max eyes.1 eyes.2 > 0.015 then
    some ⟨ExpressionType.wink, 1 - min eyes.1 eyes.2 / max eyes.1 eyes.2⟩
  else Option.none

/-- `detectGlare`: squinting without a smile. -/
def detectGlare (landmarks : List Landmark) : Option (RawResult ExpressionType) :=
  if getEyeOpening landmarks < CONFIG_thresholds.squinting ∧
      getSmileRatio landmarks < CONFIG_thresholds.smile * 0.5 then
    some ⟨ExpressionType.glare, 1 - getEyeOpening landmarks / CONFIG_thresholds.squinting⟩
  else Option.none

/-- `detectSuspicious`: mild eye asymmetry, short of a wink. -/
def detectSuspicious (landmarks : List Landmark) : Option (RawResult ExpressionType) :=
  let eyes := getIndividualEyeOpenings landmarks
  if min eyes.1 eyes.2 / max eyes.1 eyes.2 < 0.8 ∧
      min eyes.1 eyes.2 / max eyes.1 eyes.2 > CONFIG_thresholds.winkRatio then
    some ⟨ExpressionType.suspicious, 0.8 - min eyes.1 eyes.2 / max eyes.1 eyes.2⟩
  else Option.none

/-- `detectSleepy`: nearly closed (but not fully closed) eyes, closed mouth. -/
def detectSleepy (landmarks : List Landmark) : Option (RawResult ExpressionType) :=
  if getEyeOpening landmarks < CONFIG_thresholds.sleepyThreshold ∧
      getEyeOpening landmarks > 0.008 ∧
      getMouthOpening landmarks < CONFIG_thresholds.mouthOpen then
    some ⟨ExpressionType.sleepy,
      1 - getEyeOpening landmarks / CONFIG_thresholds.sleepyThreshold⟩
  else Option.none

/-- `detectEyebrowRaise`: high brows with eyes not wide. -/
def detectEyebrowRaise (landmarks : List Landmark) : Option (RawResult ExpressionType) :=
  if getEyebrowHeight landmarks > CONFIG_thresholds.browRaise * 1.5 ∧
      getEyeOpening landmarks < CONFIG_thresholds.eyeOpening then
    some ⟨ExpressionType.eyebrow,
      min (getEyebrowHeight landmarks / (CONFIG_thresholds.browRaise * 1.5)) 1⟩
  else Option.none

/-- `detectPout`: protruding lower lip with a closed mouth. -/
def detectPout (landmarks : List Landmark) : Option (RawResult ExpressionType) :=
  match landmarks[17]?, landmarks[152]? with
  | some lowerLip, some chin =>
      if chin.y - lowerLip.y > (0.06 : ℝ) ∧
          getMouthOpening landmarks < CONFIG_thresholds.mouthOpen * 0.8 then
        some ⟨ExpressionType.pout, min ((chin.y - lowerLip.y) / 0.08) 1⟩
      else Option.none
  | _, _ => Option.none

/-- `detectDisgust`: upper lip pulled toward the nose with narrowed eyes.
Note the confidence `1 - lipNoseDistance / 0.03` is not clamped. -/
def detectDisgust (landmarks : List Landmark) : Option (RawResult ExpressionType) :=
  match landmarks[13]?, landmarks[4]? with
  | some upperLip, some nose =>
      if upperLip.y - nose.y < (0.025 : ℝ) ∧
          getEyeOpening landmarks < CONFIG_thresholds.eyeOpening * 0.8 then
        some ⟨ExpressionType.disgust, 1 - (upperLip.y - nose.y) / 0.03⟩
      else Option.none
  | _, _ => Option.none

/-- `detectConfused`: slightly open mouth with somewhat raised brows. -/
def detectConfused (landmarks : List Landmark) : Option (RawResult ExpressionType) :=
  if getMouthOpening landmarks > CONFIG_thresholds.mouthOpen * 0.3 ∧
      getMouthOpening landmarks < CONFIG_thresholds.mouthOpen * 0.8 ∧
      getEyebrowHeight landmarks > CONFIG_thresholds.browRaise * 0.5 then
    some ⟨ExpressionType.confused, 0.6⟩
  else Option.none

/-- The `detectors` array from `ExpressionDetector.analyze`, in the source's
priority order. -/
def expressionRules : List (List Landmark → Option (RawResult ExpressionType)) :=
  [detectScream, detectShock, detectTongue, detectKissy, detectHappy, detectWink,
   detectSad, detectGlare, detectSuspicious, detectSleepy, detectEyebrowRaise,
   detectPout, detectDisgust, detectConfused]

/-- The raw per-frame classification of `ExpressionDetector.analyze`: first matching
rule, or `neutral` at confidence 0. -/
def rawExpression (landmarks : List Landmark) : RawResult ExpressionType :=
  (firstSome (expressionRules.map (fun d => d landmarks))).getD ⟨ExpressionType.neutral, 0⟩

end ExpressionDetector

end

/-! ## The temporal stabilizer

`ExpressionDetector.analyze` and `GestureDetector.analyze` wrap their raw
classifiers in textually identical smoothing/hold/debounce logic.  The logic is
embedded once, generically in the category type `α`, and instantiated twice.
Field correspondence with the two classes:

* `history`        ↔ `expressionHistory` / `gestureHistory`
* `lastSwitchTime` ↔ `lastExpressionTime` / `lastGestureTime`
* `current`        ↔ `currentExpression` / `currentGesture`
* `holdStartTime`  ↔ `holdStartTime`
* `pending`        ↔ `pendingExpression` / `pendingGesture`
-/

/-- The mutable state of a detector instance, fields in source declaration order. -/
structure StabState (α : Type) where
  history : List α
  lastSwitchTime : ℤ
  current : α
  holdStartTime : ℤ
  pending : Option α
deriving DecidableEq

/-- The initial field values of a freshly constructed detector. -/
def stabInit {α : Type} (dflt : α) : StabState α :=
  ⟨[], 0, dflt, 0, Option.none⟩

/-- `push` followed by the capacity check: `history.push(raw)` then `shift()` when the
length exceeds `CONFIG.transitions.historyLength`. -/
def pushHist {α : Type} (history : List α) (c : α) : List α :=
  let h1 := history ++ [c]
  if CONFIG_transitions.historyLength < h1.length then h1.tail else h1

/-- JavaScript key insertion order of the `counts` object built by iterating over the
history: each category at its first occurrence. -/
def firstOccurrences {α : Type} [DecidableEq α] (l : List α) : List α :=
  l.foldl (fun acc a => if a ∈ acc then acc else acc ++ [a]) []

/-- The smoothed category: `Object.entries(counts).sort((a, b) => b[1] - a[1])[0][0]`.
`Array.prototype.sort` is stable (ES2019) and object keys enumerate in insertion
order, so this is the first category, in order of first occurrence in the history,
whose count is maximal.  The `[]` case is unreachable in `analyze` (the history has
just been pushed to); the default is returned there. -/
def mostCommonFirst {α : Type} [DecidableEq α] (history : List α) (dflt : α) : α :=
  match firstOccurrences history with
  | [] => dflt
  | e :: es => es.foldl (fun best c => if history.count best < history.count c then c else best) e

/-- The smoothed category computed by `analyze` after pushing this frame's raw
category onto the history of state `s`. -/
def smoothedVal {α : Type} [DecidableEq α] (dflt : α) (raw : List Landmark → RawResult α)
    (s : StabState α) (landmarks : List Landmark) : α :=
  mostCommonFirst (pushHist s.history (raw landmarks).category) dflt

/-- The body of `analyze` shared by both detector classes: the length guard, the raw
first-match classification, the history push, the majority vote, and the
hold/debounce transition.  Returns the updated state together with the frame's
result `{category: current, confidence: rawConfidence}`. -/
def stabAnalyze {α : Type} [DecidableEq α] (minLen : ℕ) (dflt : α)
    (raw : List Landmark → RawResult α) (s : StabState α) (landmarks : List Landmark)
    (now : ℤ) : StabState α × RawResult α :=
  if landmarks.length < minLen then (s, ⟨dflt, 0⟩)
  else
    let r := raw landmarks
    let hist := pushHist s.history r.category
    let sm := mostCommonFirst hist dflt
    let s2 : StabState α :=
      if sm ≠ s.current then
        if s.pending ≠ some sm then
          { s with history := hist, pending := some sm, holdStartTime := now }
        else if CONFIG_transitions.holdTime ≤ now - s.holdStartTime then
          if CONFIG_transitions.debounce ≤ now - s.lastSwitchTime then
            { s with history := hist, current := sm, lastSwitchTime := now, pending := Option.none }
          else { s with history := hist }
        else { s with history := hist }
      else { s with history := hist, pending := Option.none }
    (s2, ⟨s2.current, r.confidence⟩)

/-- A detector run: feed a list of `(landmarks, Date.now())` frames through `analyze`
starting from state `s`, collecting the returned results. -/
def stabRunOutputs {α : Type} [DecidableEq α] (minLen : ℕ) (dflt : α)
    (raw : List Landmark → RawResult α) :
    StabState α → List (List Landmark × ℤ) → List (RawResult α)
  | _, [] => []
  | s, (l, now) :: rest =>
      (stabAnalyze minLen dflt raw s l now).2 ::
        stabRunOutputs minLen dflt raw (stabAnalyze minLen dflt raw s l now).1 rest

/-- The state reached after `n` calls of `analyze` on a fresh detector, when call `k`
receives landmark set `f k` at time `t k`. -/
def stabSeq {α : Type} [DecidableEq α] (minLen : ℕ) (dflt : α)
    (raw : List Landmark → RawResult α) (f : ℕ → List Landmark) (t : ℕ → ℤ) : ℕ → StabState α
  | 0 => stabInit dflt
  | n + 1 => (stabAnalyze minLen dflt raw (stabSeq minLen dflt raw f t n) (f n) (t n)).1

namespace ExpressionDetector

/-- `ExpressionDetector.analyze`, with its length guard 468 and default `neutral`. -/
noncomputable def analyze (s : StabState ExpressionType) (landmarks : List Landmark)
    (now : ℤ) : StabState ExpressionType × RawResult ExpressionType :=
  stabAnalyze 468 ExpressionType.neutral rawExpression s landmarks now

/-- `ExpressionDetector.reset`: restore every field to its initial value. -/
def reset (_s : StabState ExpressionType) : StabState ExpressionType :=
  ⟨[], 0, ExpressionType.neutral, 0, Option.none⟩

/-- A run of `ExpressionDetector.analyze` from a given state. -/
noncomputable def run :
    StabState ExpressionType → List (List Landmark × ℤ) → List (RawResult ExpressionType) :=
  stabRunOutputs 468 ExpressionType.neutral rawExpression

/-- States of a fresh `ExpressionDetector` along an input stream. -/
noncomputable def seq (f : ℕ → List Landmark) (t : ℕ → ℤ) : ℕ → StabState ExpressionType :=
  stabSeq 468 ExpressionType.neutral rawExpression f t

end ExpressionDetector

namespace GestureDetector

/-- `GestureDetector.analyze`, with its length guard 21 and default `none`. -/
noncomputable def analyze (s : StabState GestureType) (landmarks : List Landmark)
    (now : ℤ) : StabState GestureType × RawResult GestureType :=
  stabAnalyze 21 GestureType.none rawGesture s landmarks now

/-- `GestureDetector.reset`: restore every field to its initial value. -/
def reset (_s : StabState GestureType) : StabState GestureType :=
  ⟨[], 0, GestureType.none, 0, Option.none⟩

/-- A run of `GestureDetector.analyze` from a given state. -/
noncomputable def run :
    StabState GestureType → List (List Landmark × ℤ) → List (RawResult GestureType) :=
  stabRunOutputs 21 GestureType.none rawGesture

/-- States of a fresh `GestureDetector` along an input stream. -/
noncomputable def seq (f : ℕ → List Landmark) (t : ℕ → ℤ) : ℕ → StabState GestureType :=
  stabSeq 21 GestureType.none rawGesture f t

end GestureDetector

/-! ## The selection pool (`memePool.ts`)

`memePool` is populated once at startup (from asset discovery, out of scope) and
never mutated by `getRandomMeme`, so it is passed as a fixed mapping.  The
per-category recent buffers (`recentMemes`, a `Map` read with default `[]`) are
the mutable state.  `Math.random()` is modelled by the explicit draw `r` with the
contract `0 ≤ r < 1`. -/

/-- `DetectionType` from `config.ts`: the union of the two category enumerations. -/
inductive DetectionType
  | expr (e : ExpressionType)
  | gest (g : GestureType)
deriving DecidableEq

/-- The `neutral` key of the meme pool, the fallback category. -/
def neutralKey : DetectionType := DetectionType.expr ExpressionType.neutral

/-- `RECENT_HISTORY_SIZE` from `memePool.ts`. -/
def RECENT_HISTORY_SIZE : ℕ := 3

/-- `Math.floor(r * length)` as a list index, for a draw `r ∈ [0, 1)`. -/
def randIndex (r : ℚ) (n : ℕ) : ℕ :=
  (⌊r * n⌋).toNat

/-- `getRandomMeme(type)`: empty pools fall back to the neutral pool (no buffer read
or write); otherwise pick from the pool minus the recent buffer (or the whole pool if
that is empty), then append the pick to the buffer, shifting the oldest entry out
when the buffer exceeds `RECENT_HISTORY_SIZE`.  Returns the pick and the updated
buffers. -/
def getRandomMeme (pool recent : DetectionType → List String) (ty : DetectionType)
    (r : ℚ) : Option String × (DetectionType → List String) :=
  if (pool ty).length = 0 then
    if 0 < (pool neutralKey).length then
      (some ((pool neutralKey).getD (randIndex r (pool neutralKey).length) ""), recent)
    else (Option.none, recent)
  else
    let rec0 := recent ty
    let avail0 := (pool ty).filter (fun m => ¬m ∈ rec0)
    let avail := if avail0.length = 0 then pool ty else avail0
    let selected := avail.getD (randIndex r avail.length) ""
    let rec1 := rec0 ++ [selected]
    let rec2 := if RECENT_HISTORY_SIZE < rec1.length then rec1.tail else rec1
    (some selected, fun d => if d = ty then rec2 else recent d)

/-- The buffer state after a sequence of `getRandomMeme` calls, each given as a
`(category, random draw)` pair. -/
def runMemes (pool : DetectionType → List String) :
    (DetectionType → List String) → List (DetectionType × ℚ) → (DetectionType → List String)
  | recent, [] => recent
  | recent, (ty, r) :: rest => runMemes pool (getRandomMeme pool recent ty r).2 rest

/-- The values returned by the calls of a sequence that target category `c`,
in order. -/
def picksFor (pool : DetectionType → List String) (c : DetectionType) :
    (DetectionType → List String) → List (DetectionType × ℚ) → List (Option String)
  | _, [] => []
  | recent, (ty, r) :: rest =>
      if ty = c then
        (getRandomMeme pool recent ty r).1 ::
          picksFor pool c (getRandomMeme pool recent ty r).2 rest
      else picksFor pool c (getRandomMeme pool recent ty r).2 rest

/-- Like `picksFor`, but as the bare selected strings (the non-fallback path always
returns `some`). -/
def pickList (pool : DetectionType → List String) (c : DetectionType) :
    (DetectionType → List String) → List (DetectionType × ℚ) → List String
  | _, [] => []
  | recent, (ty, r) :: rest =>
      if ty = c then
        ((getRandomMeme pool recent ty r).1.getD "") ::
          pickList pool c (getRandomMeme pool recent ty r).2 rest
      else pickList pool c (getRandomMeme pool recent ty r).2 rest

/-- The last (up to) three entries of a pick sequence: the shape the recent buffer
keeps under FIFO eviction. -/
def lastThree (l : List String) : List String :=
  l.drop (l.length - RECENT_HISTORY_SIZE)

/-- The empty buffer state at process start (`recentMemes` with no entries). -/
def emptyRecent : DetectionType → List String := fun _ => []

/-! ## Concrete landmark sets used for witnesses and counterexamples -/

noncomputable section

/-- The base point `(0.5, 0.5)` used by the synthetic landmark sets below. -/
def baseLm : Landmark := ⟨0.5, 0.5, Option.none⟩

/-- A 21-point hand with every digit curled: satisfies exactly the fist rule. -/
def fistLms : List Landmark := List.replicate 21 baseLm

/-- A 21-point hand with index and middle raised: satisfies exactly the peace rule. -/
def peaceLms : List Landmark :=
  ((List.replicate 21 baseLm).set 8 ⟨0.5, 0.4, Option.none⟩).set 12 ⟨0.5, 0.4, Option.none⟩

/-- A 21-point hand satisfying both the OK rule (thumb tip on index tip, middle /
ring / pinky raised) and the wave rule (all five digits extended). -/
def okWaveLms : List Landmark :=
  (((((List.replicate 21 baseLm).set 4 ⟨0.9, 0.3, Option.none⟩).set
      8 ⟨0.9, 0.3, Option.none⟩).set 12 ⟨0.5, 0.3, Option.none⟩).set
      16 ⟨0.5, 0.3, Option.none⟩).set 20 ⟨0.5, 0.3, Option.none⟩

/-- A 470-point face (≥ 468 but < 478) with an open mouth: the tongue rule fires. -/
def c3lms : List Landmark := (List.replicate 470 baseLm).set 13 ⟨0.5, 0.4, Option.none⟩

/-- A 478-point face whose nose-tip landmark sits below the upper lip
(`lipNoseDistance = -0.4`): the disgust rule fires with confidence above 1. -/
def c4lms : List Landmark :=
  (((List.replicate 478 baseLm).set 4 ⟨0.5, 0.9, Option.none⟩).set
      61 ⟨0.4, 0.49, Option.none⟩).set 291 ⟨0.6, 0.49, Option.none⟩

end

/-! ## Case analysis of one `analyze` step -/

section StabStepLemmas

variable {α : Type} [DecidableEq α] {minLen : ℕ} {dflt : α} {raw : List Landmark → RawResult α}
variable {s : StabState α} {landmarks : List Landmark} {now : ℤ}

lemma stabAnalyze_short (h : landmarks.length < minLen) :
    stabAnalyze minLen dflt raw s landmarks now = (s, ⟨dflt, 0⟩) := by
  simp [stabAnalyze, h]

lemma stabAnalyze_same (h : ¬landmarks.length < minLen)
    (hsm : smoothedVal dflt raw s landmarks = s.current) :
    stabAnalyze minLen dflt raw s landmarks now =
      ({ s with history := pushHist s.history (raw landmarks).category, pending := Option.none },
        ⟨s.current, (raw landmarks).confidence⟩) := by
  rw [smoothedVal] at hsm
  simp [stabAnalyze, h, hsm]

lemma stabAnalyze_newPending (h : ¬landmarks.length < minLen)
    (hsm : smoothedVal dflt raw s landmarks ≠ s.current)
    (hp : s.pending ≠ some (smoothedVal dflt raw s landmarks)) :
    stabAnalyze minLen dflt raw s landmarks now =
      ({ s with history := pushHist s.history (raw landmarks).category, pending := some (smoothedVal dflt raw s landmarks), holdStartTime := now },
        ⟨s.current, (raw landmarks).confidence⟩) := by
  rw [smoothedVal] at hsm hp
  simp [stabAnalyze, h, hsm, hp, smoothedVal]

lemma stabAnalyze_holdFail (h : ¬landmarks.length < minLen)
    (hsm : smoothedVal dflt raw s landmarks ≠ s.current)
    (hp : s.pending = some (smoothedVal dflt raw s landmarks))
    (ht : ¬CONFIG_transitions.holdTime ≤ now - s.holdStartTime) :
    stabAnalyze minLen dflt raw s landmarks now =
      ({ s with history := pushHist s.history (raw landmarks).category },
        ⟨s.current, (raw landmarks).confidence⟩) := by
  rw [smoothedVal] at hsm hp
  simp [stabAnalyze, h, hsm, hp, ht]

lemma stabAnalyze_debounceFail (h : ¬landmarks.length < minLen)
    (hsm : smoothedVal dflt raw s landmarks ≠ s.current)
    (hp : s.pending = some (smoothedVal dflt raw s landmarks))
    (ht : CONFIG_transitions.holdTime ≤ now - s.holdStartTime)
    (hd : ¬CONFIG_transitions.debounce ≤ now - s.lastSwitchTime) :
    stabAnalyze minLen dflt raw s landmarks now =
      ({ s with history := pushHist s.history (raw landmarks).category },
        ⟨s.current, (raw landmarks).confidence⟩) := by
  rw [smoothedVal] at hsm hp
  simp [stabAnalyze, h, hsm, hp, ht, hd]

lemma stabAnalyze_commit (h : ¬landmarks.length < minLen)
    (hsm : smoothedVal dflt raw s landmarks ≠ s.current)
    (hp : s.pending = some (smoothedVal dflt raw s landmarks))
    (ht : CONFIG_transitions.holdTime ≤ now - s.holdStartTime)
    (hd : CONFIG_transitions.debounce ≤ now - s.lastSwitchTime) :
    stabAnalyze minLen dflt raw s landmarks now =
      ({ s with history := pushHist s.history (raw landmarks).category, current := smoothedVal dflt raw s landmarks, lastSwitchTime := now, pending := Option.none },
        ⟨smoothedVal dflt raw s landmarks, (raw landmarks).confidence⟩) := by
  rw [smoothedVal] at hsm hp
  simp [stabAnalyze, h, hsm, hp, ht, hd, smoothedVal]

/-- If an `analyze` step changes `current`, the code took the commit branch: the new
value was already pending, its hold timer has run at least `holdTime`, at least
`debounce` has passed since the last switch, and the switch timestamp is updated. -/
lemma stabAnalyze_current_change
    (h : ((stabAnalyze minLen dflt raw s landmarks now).1).current ≠ s.current) :
    s.pending = some ((stabAnalyze minLen dflt raw s landmarks now).1).current ∧
      CONFIG_transitions.holdTime ≤ now - s.holdStartTime ∧
      CONFIG_transitions.debounce ≤ now - s.lastSwitchTime ∧
      ((stabAnalyze minLen dflt raw s landmarks now).1).lastSwitchTime = now := by
  by_cases hg : landmarks.length < minLen
  · rw [stabAnalyze_short hg] at h
    exact absurd rfl h
  by_cases hsm : smoothedVal dflt raw s landmarks = s.current
  · rw [stabAnalyze_same hg hsm] at h
    exact absurd rfl h
  by_cases hp : s.pending = some (smoothedVal dflt raw s landmarks)
  · by_cases ht : CONFIG_transitions.holdTime ≤ now - s.holdStartTime
    · by_cases hd : CONFIG_transitions.debounce ≤ now - s.lastSwitchTime
      · rw [stabAnalyze_commit hg hsm hp ht hd] at h ⊢
        exact ⟨hp, ht, hd, rfl⟩
      · rw [stabAnalyze_debounceFail hg hsm hp ht hd] at h
        exact absurd rfl h
    · rw [stabAnalyze_holdFail hg hsm hp ht] at h
      exact absurd rfl h
  · rw [stabAnalyze_newPending hg hsm hp] at h
    exact absurd rfl h

/-- A step that does not change `current` leaves the switch timestamp untouched. -/
lemma stabAnalyze_lastSwitch_of_same
    (h : ((stabAnalyze minLen dflt raw s landmarks now).1).current = s.current) :
    ((stabAnalyze minLen dflt raw s landmarks now).1).lastSwitchTime = s.lastSwitchTime := by
  by_cases hg : landmarks.length < minLen
  · rw [stabAnalyze_short hg]
  by_cases hsm : smoothedVal dflt raw s landmarks = s.current
  · rw [stabAnalyze_same hg hsm]
  by_cases hp : s.pending = some (smoothedVal dflt raw s landmarks)
  · by_cases ht : CONFIG_transitions.holdTime ≤ now - s.holdStartTime
    · by_cases hd : CONFIG_transitions.debounce ≤ now - s.lastSwitchTime
      · rw [stabAnalyze_commit hg hsm hp ht hd] at h
        exact absurd h hsm
      · rw [stabAnalyze_debounceFail hg hsm hp ht hd]
    · rw [stabAnalyze_holdFail hg hsm hp ht]
  · rw [stabAnalyze_newPending hg hsm hp]

/-- Provenance of a pending candidate after one step: either it was already pending
(hold timer untouched) or it was set pending by this step (hold timer set to `now`).
In both cases `current` is unchanged by this step whenever a candidate remains
pending. -/
lemma stabAnalyze_pending_source {c : α}
    (h : ((stabAnalyze minLen dflt raw s landmarks now).1).pending = some c) :
    (s.pending = some c ∧
        ((stabAnalyze minLen dflt raw s landmarks now).1).holdStartTime = s.holdStartTime) ∨
      (s.pending ≠ some c ∧
        ((stabAnalyze minLen dflt raw s landmarks now).1).holdStartTime = now) := by
  by_cases hg : landmarks.length < minLen
  · rw [stabAnalyze_short hg] at h ⊢
    exact Or.inl ⟨h, rfl⟩
  by_cases hsm : smoothedVal dflt raw s landmarks = s.current
  · rw [stabAnalyze_same hg hsm] at h
    simp at h
  by_cases hp : s.pending = some (smoothedVal dflt raw s landmarks)
  · by_cases ht : CONFIG_transitions.holdTime ≤ now - s.holdStartTime
    · by_cases hd : CONFIG_transitions.debounce ≤ now - s.lastSwitchTime
      · rw [stabAnalyze_commit hg hsm hp ht hd] at h
        simp at h
      · rw [stabAnalyze_debounceFail hg hsm hp ht hd] at h ⊢
        exact Or.inl ⟨h, rfl⟩
    · rw [stabAnalyze_holdFail hg hsm hp ht] at h ⊢
      exact Or.inl ⟨h, rfl⟩
  · rw [stabAnalyze_newPending hg hsm hp] at h ⊢
    simp at h
    exact Or.inr ⟨h ▸ hp, rfl⟩

end StabStepLemmas

/-! ## Stream invariants of the stabilizer -/

section StabSeqLemmas

variable {α : Type} [DecidableEq α] (minLen : ℕ) (dflt : α) (raw : List Landmark → RawResult α)
variable (f : ℕ → List Landmark) (t : ℕ → ℤ)

lemma stabSeq_succ (n : ℕ) :
    stabSeq minLen dflt raw f t (n + 1) =
      (stabAnalyze minLen dflt raw (stabSeq minLen dflt raw f t n) (f n) (t n)).1 := rfl

/-- Every pending candidate was set pending at a definite earlier call `i`, has been
pending at every call since, and its hold timer still records the time `t i`. -/
lemma stabSeq_pending_origin :
    ∀ n c, (stabSeq minLen dflt raw f t n).pending = some c →
      ∃ i, i < n ∧ (stabSeq minLen dflt raw f t i).pending ≠ some c ∧
        ∀ k, i < k → k ≤ n →
          (stabSeq minLen dflt raw f t k).pending = some c ∧
          (stabSeq minLen dflt raw f t k).holdStartTime = t i := by
  intro n
  induction n with
  | zero =>
    intro c h
    simp [stabSeq, stabInit] at h
  | succ n ih =>
    intro c h
    rw [stabSeq_succ] at h
    rcases stabAnalyze_pending_source h with ⟨hp, hh⟩ | ⟨hp, hh⟩
    · rcases ih c hp with ⟨i, hin, hnot, hall⟩
      refine ⟨i, by omega, hnot, fun k hik hkn => ?_⟩
      rcases Nat.lt_succ_iff_lt_or_eq.mp (Nat.lt_succ_of_le hkn) with hk | hk
      · exact hall k hik (by omega)
      · subst hk
        rw [stabSeq_succ]
        exact ⟨h, by rw [hh]; exact (hall n hin le_rfl).2⟩
    · refine ⟨n, Nat.lt_succ_self n, hp, fun k hik hkn => ?_⟩
      have hk : k = n + 1 := by omega
      subst hk
      rw [stabSeq_succ]
      exact ⟨h, hh⟩

/-- The switch timestamp bounds every earlier commit time from above. -/
lemma stabSeq_lastSwitch_bound :
    ∀ n m, m < n →
      (stabSeq minLen dflt raw f t (m + 1)).current ≠ (stabSeq minLen dflt raw f t m).current →
      t m ≤ (stabSeq minLen dflt raw f t n).lastSwitchTime := by
  intro n
  induction n with
  | zero => omega
  | succ n ih =>
    intro m hm hc
    by_cases hstep :
        (stabSeq minLen dflt raw f t (n + 1)).current = (stabSeq minLen dflt raw f t n).current
    · have hstep2 : ((stabAnalyze minLen dflt raw (stabSeq minLen dflt raw f t n) (f n)
          (t n)).1).current = (stabSeq minLen dflt raw f t n).current := hstep
      have heq := stabAnalyze_lastSwitch_of_same hstep2
      rw [stabSeq_succ, heq]
      rcases Nat.lt_succ_iff_lt_or_eq.mp hm with hm2 | hm2
      · exact ih m hm2 hc
      · subst hm2
        exact absurd hstep hc
    · have hstep2 : ¬((stabAnalyze minLen dflt raw (stabSeq minLen dflt raw f t n) (f n)
          (t n)).1).current = (stabSeq minLen dflt raw f t n).current := hstep
      have hfacts := stabAnalyze_current_change hstep2
      have hdeb := hfacts.2.2.1
      have hlast := hfacts.2.2.2
      rw [stabSeq_succ, hlast]
      rcases Nat.lt_succ_iff_lt_or_eq.mp hm with hm2 | hm2
      · have hih := ih m hm2 hc
        have hd0 : (0 : ℤ) < CONFIG_transitions.debounce := by norm_num [CONFIG_transitions]
        omega
      · subst hm2
        exact le_rfl

/-- Generic form of the hold/debounce guarantee: whenever a run of `analyze` calls
commits a switch of `current` at call `n`, the committed value became pending at some
earlier call `i`, stayed continuously pending through call `n`, was held for at least
`holdTime`, and every earlier switch lies at least `debounce` in the past. -/
lemma stabSeq_spec (n : ℕ)
    (hc : (stabSeq minLen dflt raw f t (n + 1)).current ≠ (stabSeq minLen dflt raw f t n).current) :
    (∃ i, i < n ∧
      (stabSeq minLen dflt raw f t i).pending ≠
        some ((stabSeq minLen dflt raw f t (n + 1)).current) ∧
      (∀ k, i < k → k ≤ n →
        (stabSeq minLen dflt raw f t k).pending =
          some ((stabSeq minLen dflt raw f t (n + 1)).current)) ∧
      CONFIG_transitions.holdTime ≤ t n - t i) ∧
    (∀ m, m < n →
      (stabSeq minLen dflt raw f t (m + 1)).current ≠ (stabSeq minLen dflt raw f t m).current →
      CONFIG_transitions.debounce ≤ t n - t m) := by
  have hc2 : ¬((stabAnalyze minLen dflt raw (stabSeq minLen dflt raw f t n) (f n)
      (t n)).1).current = (stabSeq minLen dflt raw f t n).current := hc
  have hfacts := stabAnalyze_current_change hc2
  have hpend : (stabSeq minLen dflt raw f t n).pending =
      some ((stabSeq minLen dflt raw f t (n + 1)).current) := hfacts.1
  constructor
  · rcases stabSeq_pending_origin minLen dflt raw f t n _ hpend with ⟨i, hin, hnot, hall⟩
    refine ⟨i, hin, hnot, fun k hik hkn => (hall k hik hkn).1, ?_⟩
    have hhold : CONFIG_transitions.holdTime ≤
        t n - (stabSeq minLen dflt raw f t n).holdStartTime := hfacts.2.1
    have hstart := (hall n hin le_rfl).2
    rw [hstart] at hhold
    exact hhold
  · intro m hm hcm
    have hbound := stabSeq_lastSwitch_bound minLen dflt raw f t n m hm hcm
    have hdeb : CONFIG_transitions.debounce ≤
        t n - (stabSeq minLen dflt raw f t n).lastSwitchTime := hfacts.2.2.1
    omega

end StabSeqLemmas

/-! ## Evaluation of the gesture rules on the concrete hands -/

section FistEval

lemma fistLms_length : fistLms.length = 21 := by simp [fistLms]

lemma fistLms_lookup (i : ℕ) (h : i < 21) : fistLms[i]? = some baseLm := by
  simp only [fistLms, List.getElem?_replicate, h, if_true, if_pos]

lemma fistLms_not_ext (tipIdx pipIdx mcpIdx : ℕ) (h1 : tipIdx < 21) (h2 : pipIdx < 21)
    (h3 : mcpIdx < 21) : ¬isFingerExtended fistLms tipIdx pipIdx mcpIdx := by
  simp only [isFingerExtended, fistLms_lookup _ h1, fistLms_lookup _ h2, fistLms_lookup _ h3,
    baseLm]
  norm_num

lemma fistLms_not_thumb : ¬isThumbExtended fistLms := by
  norm_num [isThumbExtended, fistLms_lookup 4 (by norm_num), fistLms_lookup 3 (by norm_num),
    fistLms_lookup 2 (by norm_num), fistLms_lookup 0 (by norm_num), lmAt,
    fistLms_lookup 5 (by norm_num), fistLms_lookup 17 (by norm_num), baseLm]

lemma fistLms_not_thumbUp : ¬isThumbUp fistLms := by
  norm_num [isThumbUp, fistLms_lookup 4 (by norm_num), fistLms_lookup 2 (by norm_num),
    fistLms_lookup 0 (by norm_num), baseLm]

lemma fistLms_not_thumbDown : ¬isThumbDown fistLms := by
  norm_num [isThumbDown, fistLms_lookup 4 (by norm_num), fistLms_lookup 0 (by norm_num), baseLm]

lemma detectMiddleFinger_fist : GestureDetector.detectMiddleFinger fistLms = Option.none := by
  simp only [GestureDetector.detectMiddleFinger, getFingerStates]
  exact if_neg fun hh => fistLms_not_ext 12 10 9 (by norm_num) (by norm_num) (by norm_num) hh.1

lemma detectThumbsUp_fist : GestureDetector.detectThumbsUp fistLms = Option.none := by
  simp only [GestureDetector.detectThumbsUp, getFingerStates]
  exact if_neg fun hh => fistLms_not_thumbUp hh.1

lemma detectThumbsDown_fist : GestureDetector.detectThumbsDown fistLms = Option.none := by
  simp only [GestureDetector.detectThumbsDown, getFingerStates]
  exact if_neg fun hh => fistLms_not_thumbDown hh.1

lemma detectPeace_fist : GestureDetector.detectPeace fistLms = Option.none := by
  simp only [GestureDetector.detectPeace, getFingerStates]
  exact if_neg fun hh => fistLms_not_ext 8 6 5 (by norm_num) (by norm_num) (by norm_num) hh.1

lemma detectOK_fist : GestureDetector.detectOK fistLms = Option.none := by
  simp only [GestureDetector.detectOK, getFingerStates,
    fistLms_lookup 4 (by norm_num), fistLms_lookup 8 (by norm_num)]
  exact if_neg fun hh =>
    fistLms_not_ext 12 10 9 (by norm_num) (by norm_num) (by norm_num) hh.2.1

lemma detectRockOn_fist : GestureDetector.detectRockOn fistLms = Option.none := by
  simp only [GestureDetector.detectRockOn, getFingerStates]
  exact if_neg fun hh => fistLms_not_ext 8 6 5 (by norm_num) (by norm_num) (by norm_num) hh.1

lemma detectPointing_fist : GestureDetector.detectPointing fistLms = Option.none := by
  simp only [GestureDetector.detectPointing, getFingerStates]
  exact if_neg fun hh => fistLms_not_ext 8 6 5 (by norm_num) (by norm_num) (by norm_num) hh.1

lemma detectWave_fist : GestureDetector.detectWave fistLms = Option.none := by
  simp only [GestureDetector.detectWave, getFingerStates]
  exact if_neg fun hh => fistLms_not_thumb hh.1

lemma detectFist_fist : GestureDetector.detectFist fistLms = some ⟨GestureType.fist, 0.8⟩ := by
  simp only [GestureDetector.detectFist, getFingerStates]
  exact if_pos ⟨fistLms_not_thumb,
    fistLms_not_ext 8 6 5 (by norm_num) (by norm_num) (by norm_num),
    fistLms_not_ext 12 10 9 (by norm_num) (by norm_num) (by norm_num),
    fistLms_not_ext 16 14 13 (by norm_num) (by norm_num) (by norm_num),
    fistLms_not_ext 20 18 17 (by norm_num) (by norm_num) (by norm_num)⟩

/-- The all-curled hand classifies raw as `fist` at confidence 0.8. -/
lemma rawGesture_fist : GestureDetector.rawGesture fistLms = ⟨GestureType.fist, 0.8⟩ := by
  simp [GestureDetector.rawGesture, GestureDetector.gestureRules, firstSome,
    detectMiddleFinger_fist, detectThumbsUp_fist, detectThumbsDown_fist, detectPeace_fist,
    detectOK_fist, detectRockOn_fist, detectPointing_fist, detectWave_fist, detectFist_fist]

end FistEval

section PeaceEval

lemma peaceLms_length : peaceLms.length = 21 := by simp [peaceLms]

lemma peaceLms_lookup_other (i : ℕ) (h : i < 21) (h8 : i ≠ 8) (h12 : i ≠ 12) :
    peaceLms[i]? = some baseLm := by
  simp only [peaceLms, List.getElem?_set, List.length_set, List.length_replicate]
  rw [if_neg (by omega), if_neg (by omega), List.getElem?_replicate, if_pos h]

lemma peaceLms_8 : peaceLms[8]? = some ⟨0.5, 0.4, Option.none⟩ := by
  simp only [peaceLms, List.getElem?_set, List.length_set, List.length_replicate]
  norm_num

lemma peaceLms_12 : peaceLms[12]? = some ⟨0.5, 0.4, Option.none⟩ := by
  simp only [peaceLms, List.getElem?_set, List.length_set, List.length_replicate]
  norm_num

lemma peaceLms_index : isFingerExtended peaceLms 8 6 5 := by
  norm_num [isFingerExtended, peaceLms_8,
    peaceLms_lookup_other 6 (by norm_num) (by norm_num) (by norm_num),
    peaceLms_lookup_other 5 (by norm_num) (by norm_num) (by norm_num), baseLm]

lemma peaceLms_middle : isFingerExtended peaceLms 12 10 9 := by
  norm_num [isFingerExtended, peaceLms_12,
    peaceLms_lookup_other 10 (by norm_num) (by norm_num) (by norm_num),
    peaceLms_lookup_other 9 (by norm_num) (by norm_num) (by norm_num), baseLm]

lemma peaceLms_not_ring : ¬isFingerExtended peaceLms 16 14 13 := by
  norm_num [isFingerExtended, peaceLms_lookup_other 16 (by norm_num) (by norm_num) (by norm_num),
    peaceLms_lookup_other 14 (by norm_num) (by norm_num) (by norm_num),
    peaceLms_lookup_other 13 (by norm_num) (by norm_num) (by norm_num), baseLm]

lemma peaceLms_not_pinky : ¬isFingerExtended peaceLms 20 18 17 := by
  norm_num [isFingerExtended, peaceLms_lookup_other 20 (by norm_num) (by norm_num) (by norm_num),
    peaceLms_lookup_other 18 (by norm_num) (by norm_num) (by norm_num),
    peaceLms_lookup_other 17 (by norm_num) (by norm_num) (by norm_num), baseLm]

lemma peaceLms_not_thumbUp : ¬isThumbUp peaceLms := by
  norm_num [isThumbUp, peaceLms_lookup_other 4 (by norm_num) (by norm_num) (by norm_num),
    peaceLms_lookup_other 2 (by norm_num) (by norm_num) (by norm_num),
    peaceLms_lookup_other 0 (by norm_num) (by norm_num) (by norm_num), baseLm]

lemma peaceLms_not_thumbDown : ¬isThumbDown peaceLms := by
  norm_num [isThumbDown, peaceLms_lookup_other 4 (by norm_num) (by norm_num) (by norm_num),
    peaceLms_lookup_other 0 (by norm_num) (by norm_num) (by norm_num), baseLm]

lemma detectMiddleFinger_peace : GestureDetector.detectMiddleFinger peaceLms = Option.none := by
  simp only [GestureDetector.detectMiddleFinger, getFingerStates]
  exact if_neg fun hh => hh.2.1 peaceLms_index

lemma detectThumbsUp_peace : GestureDetector.detectThumbsUp peaceLms = Option.none := by
  simp only [GestureDetector.detectThumbsUp, getFingerStates]
  exact if_neg fun hh => peaceLms_not_thumbUp hh.1

lemma detectThumbsDown_peace : GestureDetector.detectThumbsDown peaceLms = Option.none := by
  simp only [GestureDetector.detectThumbsDown, getFingerStates]
  exact if_neg fun hh => peaceLms_not_thumbDown hh.1

lemma detectPeace_peace : GestureDetector.detectPeace peaceLms = some ⟨GestureType.peace, 0.85⟩ := by
  simp only [GestureDetector.detectPeace, getFingerStates]
  exact if_pos ⟨peaceLms_index, peaceLms_middle, peaceLms_not_ring, peaceLms_not_pinky⟩

/-- The two-fingers-up hand classifies raw as `peace` at confidence 0.85. -/
lemma rawGesture_peace : GestureDetector.rawGesture peaceLms = ⟨GestureType.peace, 0.85⟩ := by
  simp [GestureDetector.rawGesture, GestureDetector.gestureRules, firstSome,
    detectMiddleFinger_peace, detectThumbsUp_peace, detectThumbsDown_peace, detectPeace_peace]

end PeaceEval

section OkWaveEval

lemma okWaveLms_lookup_other (i : ℕ) (h : i < 21) (h4 : i ≠ 4) (h8 : i ≠ 8) (h12 : i ≠ 12)
    (h16 : i ≠ 16) (h20 : i ≠ 20) : okWaveLms[i]? = some baseLm := by
  simp only [okWaveLms, List.getElem?_set, List.length_set, List.length_replicate]
  rw [if_neg (by omega), if_neg (by omega), if_neg (by omega), if_neg (by omega),
    if_neg (by omega), List.getElem?_replicate, if_pos h]

lemma okWaveLms_4 : okWaveLms[4]? = some ⟨0.9, 0.3, Option.none⟩ := by
  simp only [okWaveLms, List.getElem?_set, List.length_set, List.length_replicate]
  norm_num

lemma okWaveLms_8 : okWaveLms[8]? = some ⟨0.9, 0.3, Option.none⟩ := by
  simp only [okWaveLms, List.getElem?_set, List.length_set, List.length_replicate]
  norm_num

lemma okWaveLms_12 : okWaveLms[12]? = some ⟨0.5, 0.3, Option.none⟩ := by
  simp only [okWaveLms, List.getElem?_set, List.length_set, List.length_replicate]
  norm_num

lemma okWaveLms_16 : okWaveLms[16]? = some ⟨0.5, 0.3, Option.none⟩ := by
  simp only [okWaveLms, List.getElem?_set, List.length_set, List.length_replicate]
  norm_num

lemma okWaveLms_20 : okWaveLms[20]? = some ⟨0.5, 0.3, Option.none⟩ := by
  simp only [okWaveLms, List.getElem?_set, List.length_set, List.length_replicate]
  norm_num

lemma okWaveLms_index : isFingerExtended okWaveLms 8 6 5 := by
  norm_num [isFingerExtended, okWaveLms_8,
    okWaveLms_lookup_other 6 (by norm_num) (by norm_num) (by norm_num) (by norm_num) (by norm_num)
      (by norm_num),
    okWaveLms_lookup_other 5 (by norm_num) (by norm_num) (by norm_num) (by norm_num) (by norm_num)
      (by norm_num), baseLm]

lemma okWaveLms_middle : isFingerExtended okWaveLms 12 10 9 := by
  norm_num [isFingerExtended, okWaveLms_12,
    okWaveLms_lookup_other 10 (by norm_num) (by norm_num) (by norm_num) (by norm_num) (by norm_num)
      (by norm_num),
    okWaveLms_lookup_other 9 (by norm_num) (by norm_num) (by norm_num) (by norm_num) (by norm_num)
      (by norm_num), baseLm]

lemma okWaveLms_ring : isFingerExtended okWaveLms 16 14 13 := by
  norm_num [isFingerExtended, okWaveLms_16,
    okWaveLms_lookup_other 14 (by norm_num) (by norm_num) (by norm_num) (by norm_num) (by norm_num)
      (by norm_num),
    okWaveLms_lookup_other 13 (by norm_num) (by norm_num) (by norm_num) (by norm_num) (by norm_num)
      (by norm_num), baseLm]

lemma okWaveLms_pinky : isFingerExtended okWaveLms 20 18 17 := by
  norm_num [isFingerExtended, okWaveLms_20,
    okWaveLms_lookup_other 18 (by norm_num) (by norm_num) (by norm_num) (by norm_num) (by norm_num)
      (by norm_num),
    okWaveLms_lookup_other 17 (by norm_num) (by norm_num) (by norm_num) (by norm_num) (by norm_num)
      (by norm_num), baseLm]

lemma okWaveLms_thumb : isThumbExtended okWaveLms := by
  norm_num [isThumbExtended, okWaveLms_4,
    okWaveLms_lookup_other 3 (by norm_num) (by norm_num) (by norm_num) (by norm_num) (by norm_num)
      (by norm_num),
    okWaveLms_lookup_other 2 (by norm_num) (by norm_num) (by norm_num) (by norm_num) (by norm_num)
      (by norm_num),
    okWaveLms_lookup_other 0 (by norm_num) (by norm_num) (by norm_num) (by norm_num) (by norm_num)
      (by norm_num), lmAt,
    okWaveLms_lookup_other 5 (by norm_num) (by norm_num) (by norm_num) (by norm_num) (by norm_num)
      (by norm_num),
    okWaveLms_lookup_other 17 (by norm_num) (by norm_num) (by norm_num) (by norm_num) (by norm_num)
      (by norm_num), baseLm]

lemma detectMiddleFinger_okWave : GestureDetector.detectMiddleFinger okWaveLms = Option.none := by
  simp only [GestureDetector.detectMiddleFinger, getFingerStates]
  exact if_neg fun hh => hh.2.1 okWaveLms_index

lemma detectThumbsUp_okWave : GestureDetector.detectThumbsUp okWaveLms = Option.none := by
  simp only [GestureDetector.detectThumbsUp, getFingerStates]
  exact if_neg fun hh => hh.2.1 okWaveLms_index

lemma detectThumbsDown_okWave : GestureDetector.detectThumbsDown okWaveLms = Option.none := by
  simp only [GestureDetector.detectThumbsDown, getFingerStates]
  exact if_neg fun hh => hh.2.1 okWaveLms_index

lemma detectPeace_okWave : GestureDetector.detectPeace okWaveLms = Option.none := by
  simp only [GestureDetector.detectPeace, getFingerStates]
  exact if_neg fun hh => hh.2.2.1 okWaveLms_ring

lemma detectOK_okWave : GestureDetector.detectOK okWaveLms = some ⟨GestureType.ok, 0.85⟩ := by
  simp only [GestureDetector.detectOK, getFingerStates, okWaveLms_4, okWaveLms_8]
  refine if_pos ⟨?_, okWaveLms_middle, okWaveLms_ring, okWaveLms_pinky⟩
  have harg : ((0.9 : ℝ) - 0.9) ^ 2 + ((0.3 : ℝ) - 0.3) ^ 2 = 0 := by norm_num
  rw [harg, Real.sqrt_zero]
  norm_num

lemma detectWave_okWave : GestureDetector.detectWave okWaveLms = some ⟨GestureType.wave, 0.8⟩ := by
  simp only [GestureDetector.detectWave, getFingerStates]
  exact if_pos ⟨okWaveLms_thumb, okWaveLms_index, okWaveLms_middle, okWaveLms_ring,
    okWaveLms_pinky⟩

/-- The OK-plus-wave hand classifies raw as `ok` (the earlier rule) at confidence 0.85. -/
lemma rawGesture_okWave : GestureDetector.rawGesture okWaveLms = ⟨GestureType.ok, 0.85⟩ := by
  simp [GestureDetector.rawGesture, GestureDetector.gestureRules, firstSome,
    detectMiddleFinger_okWave, detectThumbsUp_okWave, detectThumbsDown_okWave,
    detectPeace_okWave, detectOK_okWave]

end OkWaveEval

/-! ## Evaluation of the expression rules on the concrete faces -/

section ExprEval

lemma getDistance_zero_of_same {lms : List Landmark} {i j : ℕ} {p : Landmark}
    (hi : lms[i]? = some p) (hj : lms[j]? = some p) :
    ExpressionDetector.getDistance lms i j = 0 := by
  simp only [ExpressionDetector.getDistance, hi, hj]
  rw [show (p.x - p.x) ^ 2 + (p.y - p.y) ^ 2 = 0 by ring, Real.sqrt_zero]

lemma c3lms_length : c3lms.length = 470 := by
  simp only [c3lms, List.length_set, List.length_replicate]

lemma c3lms_lookup_other (i : ℕ) (h : i < 470) (h13 : i ≠ 13) : c3lms[i]? = some baseLm := by
  simp only [c3lms, List.getElem?_set, List.length_replicate]
  rw [if_neg (by omega), List.getElem?_replicate, if_pos h]

lemma c3lms_13 : c3lms[13]? = some ⟨0.5, 0.4, Option.none⟩ := by
  simp only [c3lms, List.getElem?_set, List.length_replicate]
  norm_num

lemma c3_eye : ExpressionDetector.getEyeOpening c3lms = 0 := by
  rw [ExpressionDetector.getEyeOpening,
    getDistance_zero_of_same (c3lms_lookup_other 159 (by norm_num) (by norm_num))
      (c3lms_lookup_other 145 (by norm_num) (by norm_num)),
    getDistance_zero_of_same (c3lms_lookup_other 386 (by norm_num) (by norm_num))
      (c3lms_lookup_other 374 (by norm_num) (by norm_num))]
  norm_num

lemma c3_mouthOpen : ExpressionDetector.getMouthOpening c3lms = 0.1 := by
  rw [ExpressionDetector.getMouthOpening]
  simp only [ExpressionDetector.getDistance, c3lms_13,
    c3lms_lookup_other 14 (by norm_num) (by norm_num), baseLm]
  rw [show ((0.5 : ℝ) - 0.5) ^ 2 + ((0.5 : ℝ) - 0.4) ^ 2 = (0.1 : ℝ) ^ 2 by norm_num,
    Real.sqrt_sq (by norm_num)]

lemma c3_brow : ExpressionDetector.getEyebrowHeight c3lms = 0 := by
  simp only [ExpressionDetector.getEyebrowHeight,
    c3lms_lookup_other 63 (by norm_num) (by norm_num),
    c3lms_lookup_other 293 (by norm_num) (by norm_num),
    c3lms_lookup_other 159 (by norm_num) (by norm_num),
    c3lms_lookup_other 386 (by norm_num) (by norm_num), baseLm]
  norm_num

lemma detectScream_c3 : ExpressionDetector.detectScream c3lms = Option.none := by
  simp only [ExpressionDetector.detectScream]
  refine if_neg fun hh => ?_
  have h1 := hh.1
  rw [c3_eye] at h1
  norm_num [CONFIG_thresholds] at h1

lemma detectShock_c3 : ExpressionDetector.detectShock c3lms = Option.none := by
  simp only [ExpressionDetector.detectShock]
  refine if_neg fun hh => ?_
  have h1 := hh.1
  rw [c3_eye] at h1
  norm_num [CONFIG_thresholds] at h1

lemma detectTongue_c3 :
    ExpressionDetector.detectTongue c3lms = some ⟨ExpressionType.tongue, 1⟩ := by
  simp only [ExpressionDetector.detectTongue]
  rw [if_pos ⟨by rw [c3_mouthOpen]; norm_num [CONFIG_thresholds],
    by rw [c3_eye]; norm_num [CONFIG_thresholds]⟩]
  rw [c3_mouthOpen]
  norm_num [CONFIG_thresholds]

/-- The 470-point open-mouth face classifies raw as `tongue` at confidence 1. -/
lemma rawExpression_c3 :
    ExpressionDetector.rawExpression c3lms = ⟨ExpressionType.tongue, 1⟩ := by
  simp [ExpressionDetector.rawExpression, ExpressionDetector.expressionRules, firstSome,
    detectScream_c3, detectShock_c3, detectTongue_c3]

end ExprEval

section ExprEvalDisgust

lemma c4lms_length : c4lms.length = 478 := by
  simp only [c4lms, List.length_set, List.length_replicate]

lemma c4lms_lookup_other (i : ℕ) (h : i < 478) (h4 : i ≠ 4) (h61 : i ≠ 61) (h291 : i ≠ 291) :
    c4lms[i]? = some baseLm := by
  simp only [c4lms, List.getElem?_set, List.length_set, List.length_replicate]
  rw [if_neg (by omega), if_neg (by omega), if_neg (by omega), List.getElem?_replicate, if_pos h]

lemma c4lms_4 : c4lms[4]? = some ⟨0.5, 0.9, Option.none⟩ := by
  simp only [c4lms, List.getElem?_set, List.length_set, List.length_replicate]
  norm_num

lemma c4lms_61 : c4lms[61]? = some ⟨0.4, 0.49, Option.none⟩ := by
  simp only [c4lms, List.getElem?_set, List.length_set, List.length_replicate]
  norm_num

lemma c4lms_291 : c4lms[291]? = some ⟨0.6, 0.49, Option.none⟩ := by
  simp only [c4lms, List.getElem?_set, List.length_set, List.length_replicate]
  norm_num

lemma c4_eyeL : ExpressionDetector.getDistance c4lms 159 145 = 0 :=
  getDistance_zero_of_same
    (c4lms_lookup_other 159 (by norm_num) (by norm_num) (by norm_num) (by norm_num))
    (c4lms_lookup_other 145 (by norm_num) (by norm_num) (by norm_num) (by norm_num))

lemma c4_eyeR : ExpressionDetector.getDistance c4lms 386 374 = 0 :=
  getDistance_zero_of_same
    (c4lms_lookup_other 386 (by norm_num) (by norm_num) (by norm_num) (by norm_num))
    (c4lms_lookup_other 374 (by norm_num) (by norm_num) (by norm_num) (by norm_num))

lemma c4_eye : ExpressionDetector.getEyeOpening c4lms = 0 := by
  rw [ExpressionDetector.getEyeOpening, c4_eyeL, c4_eyeR]
  norm_num

lemma c4_eyesLR : ExpressionDetector.getIndividualEyeOpenings c4lms = (0, 0) := by
  rw [ExpressionDetector.getIndividualEyeOpenings, c4_eyeL, c4_eyeR]

lemma c4_mouthOpen : ExpressionDetector.getMouthOpening c4lms = 0 := by
  rw [ExpressionDetector.getMouthOpening]
  exact getDistance_zero_of_same
    (c4lms_lookup_other 13 (by norm_num) (by norm_num) (by norm_num) (by norm_num))
    (c4lms_lookup_other 14 (by norm_num) (by norm_num) (by norm_num) (by norm_num))

lemma c4_width : ExpressionDetector.getMouthWidth c4lms = 0.2 := by
  rw [ExpressionDetector.getMouthWidth]
  simp only [ExpressionDetector.getDistance, c4lms_61, c4lms_291]
  rw [show ((0.6 : ℝ) - 0.4) ^ 2 + ((0.49 : ℝ) - 0.49) ^ 2 = (0.2 : ℝ) ^ 2 by norm_num,
    Real.sqrt_sq (by norm_num)]

lemma c4_smile : ExpressionDetector.getSmileRatio c4lms = 0.01 := by
  simp only [ExpressionDetector.getSmileRatio, c4lms_61, c4lms_291,
    c4lms_lookup_other 13 (by norm_num) (by norm_num) (by norm_num) (by norm_num), baseLm]
  norm_num

lemma c4_brow : ExpressionDetector.getEyebrowHeight c4lms = 0 := by
  simp only [ExpressionDetector.getEyebrowHeight,
    c4lms_lookup_other 63 (by norm_num) (by norm_num) (by norm_num) (by norm_num),
    c4lms_lookup_other 293 (by norm_num) (by norm_num) (by norm_num) (by norm_num),
    c4lms_lookup_other 159 (by norm_num) (by norm_num) (by norm_num) (by norm_num),
    c4lms_lookup_other 386 (by norm_num) (by norm_num) (by norm_num) (by norm_num), baseLm]
  norm_num

lemma c4_pucker : ExpressionDetector.getMouthPuckerRatio c4lms = 0 := by
  rw [ExpressionDetector.getMouthPuckerRatio, if_pos (by rw [c4_width]; norm_num),
    c4_mouthOpen]
  norm_num

lemma detectScream_c4 : ExpressionDetector.detectScream c4lms = Option.none := by
  simp only [ExpressionDetector.detectScream]
  refine if_neg fun hh => ?_
  have h1 := hh.1
  rw [c4_eye] at h1
  norm_num [CONFIG_thresholds] at h1

lemma detectShock_c4 : ExpressionDetector.detectShock c4lms = Option.none := by
  simp only [ExpressionDetector.detectShock]
  refine if_neg fun hh => ?_
  have h1 := hh.1
  rw [c4_eye] at h1
  norm_num [CONFIG_thresholds] at h1

lemma detectTongue_c4 : ExpressionDetector.detectTongue c4lms = Option.none := by
  simp only [ExpressionDetector.detectTongue]
  refine if_neg fun hh => ?_
  have h1 := hh.1
  rw [c4_mouthOpen] at h1
  norm_num [CONFIG_thresholds] at h1

lemma detectKissy_c4 : ExpressionDetector.detectKissy c4lms = Option.none := by
  simp only [ExpressionDetector.detectKissy]
  refine if_neg fun hh => ?_
  have h1 := hh.1
  rw [c4_pucker] at h1
  norm_num [CONFIG_thresholds] at h1

lemma detectHappy_c4 : ExpressionDetector.detectHappy c4lms = Option.none := by
  simp only [ExpressionDetector.detectHappy]
  refine if_neg fun hh => ?_
  have h1 := hh.1
  rw [c4_smile] at h1
  norm_num [CONFIG_thresholds] at h1

lemma detectWink_c4 : ExpressionDetector.detectWink c4lms = Option.none := by
  simp only [ExpressionDetector.detectWink, c4_eyesLR]
  refine if_neg fun hh => ?_
  have h2 := hh.2
  norm_num at h2

lemma detectSad_c4 : ExpressionDetector.detectSad c4lms = Option.none := by
  simp only [ExpressionDetector.detectSad]
  refine if_neg fun hh => ?_
  have h1 := hh.1
  rw [c4_smile] at h1
  norm_num [CONFIG_thresholds] at h1

lemma detectGlare_c4 : ExpressionDetector.detectGlare c4lms = Option.none := by
  simp only [ExpressionDetector.detectGlare]
  refine if_neg fun hh => ?_
  have h2 := hh.2
  rw [c4_smile] at h2
  norm_num [CONFIG_thresholds] at h2

lemma detectSuspicious_c4 : ExpressionDetector.detectSuspicious c4lms = Option.none := by
  simp only [ExpressionDetector.detectSuspicious, c4_eyesLR]
  refine if_neg fun hh => ?_
  have h2 := hh.2
  norm_num [CONFIG_thresholds] at h2

lemma detectSleepy_c4 : ExpressionDetector.detectSleepy c4lms = Option.none := by
  simp only [ExpressionDetector.detectSleepy]
  refine if_neg fun hh => ?_
  have h2 := hh.2.1
  rw [c4_eye] at h2
  norm_num at h2

lemma detectEyebrowRaise_c4 : ExpressionDetector.detectEyebrowRaise c4lms = Option.none := by
  simp only [ExpressionDetector.detectEyebrowRaise]
  refine if_neg fun hh => ?_
  have h1 := hh.1
  rw [c4_brow] at h1
  norm_num [CONFIG_thresholds] at h1

lemma detectPout_c4 : ExpressionDetector.detectPout c4lms = Option.none := by
  simp only [ExpressionDetector.detectPout,
    c4lms_lookup_other 17 (by norm_num) (by norm_num) (by norm_num) (by norm_num),
    c4lms_lookup_other 152 (by norm_num) (by norm_num) (by norm_num) (by norm_num), baseLm]
  refine if_neg fun hh => ?_
  have h1 := hh.1
  norm_num at h1

lemma detectDisgust_c4 :
    ExpressionDetector.detectDisgust c4lms = some ⟨ExpressionType.disgust, 43 / 3⟩ := by
  simp only [ExpressionDetector.detectDisgust,
    c4lms_lookup_other 13 (by norm_num) (by norm_num) (by norm_num) (by norm_num), c4lms_4,
    baseLm]
  rw [if_pos ⟨by norm_num, by rw [c4_eye]; norm_num [CONFIG_thresholds]⟩]
  norm_num

/-- The adversarial face classifies raw as `disgust` at confidence 43/3 > 1: the
disgust rule's ratio confidence is not clamped. -/
lemma rawExpression_c4 :
    ExpressionDetector.rawExpression c4lms = ⟨ExpressionType.disgust, 43 / 3⟩ := by
  simp [ExpressionDetector.rawExpression, ExpressionDetector.expressionRules, firstSome,
    detectScream_c4, detectShock_c4, detectTongue_c4, detectKissy_c4, detectHappy_c4,
    detectWink_c4, detectSad_c4, detectGlare_c4, detectSuspicious_c4, detectSleepy_c4,
    detectEyebrowRaise_c4, detectPout_c4, detectDisgust_c4]

end ExprEvalDisgust

section ExprEvalNil

lemma nil_dist (i j : ℕ) : ExpressionDetector.getDistance [] i j = 0 := by
  simp [ExpressionDetector.getDistance]

lemma nil_eye : ExpressionDetector.getEyeOpening [] = 0 := by
  rw [ExpressionDetector.getEyeOpening, nil_dist, nil_dist]
  norm_num

lemma nil_eyesLR : ExpressionDetector.getIndividualEyeOpenings [] = (0, 0) := by
  rw [ExpressionDetector.getIndividualEyeOpenings, nil_dist, nil_dist]

lemma nil_smile : ExpressionDetector.getSmileRatio [] = 0 := by
  simp [ExpressionDetector.getSmileRatio]

lemma nil_pucker : ExpressionDetector.getMouthPuckerRatio [] = 0 := by
  rw [ExpressionDetector.getMouthPuckerRatio, ExpressionDetector.getMouthWidth, nil_dist]
  norm_num

lemma detectScream_nil : ExpressionDetector.detectScream [] = Option.none := by
  simp only [ExpressionDetector.detectScream]
  refine if_neg fun hh => ?_
  have h1 := hh.1
  rw [nil_eye] at h1
  norm_num [CONFIG_thresholds] at h1

lemma detectShock_nil : ExpressionDetector.detectShock [] = Option.none := by
  simp only [ExpressionDetector.detectShock]
  refine if_neg fun hh => ?_
  have h1 := hh.1
  rw [nil_eye] at h1
  norm_num [CONFIG_thresholds] at h1

lemma detectTongue_nil : ExpressionDetector.detectTongue [] = Option.none := by
  simp only [ExpressionDetector.detectTongue]
  refine if_neg fun hh => ?_
  have h1 := hh.1
  rw [ExpressionDetector.getMouthOpening, nil_dist] at h1
  norm_num [CONFIG_thresholds] at h1

lemma detectKissy_nil : ExpressionDetector.detectKissy [] = Option.none := by
  simp only [ExpressionDetector.detectKissy]
  refine if_neg fun hh => ?_
  have h1 := hh.1
  rw [nil_pucker] at h1
  norm_num [CONFIG_thresholds] at h1

lemma detectHappy_nil : ExpressionDetector.detectHappy [] = Option.none := by
  simp only [ExpressionDetector.detectHappy]
  refine if_neg fun hh => ?_
  have h1 := hh.1
  rw [nil_smile] at h1
  norm_num [CONFIG_thresholds] at h1

lemma detectWink_nil : ExpressionDetector.detectWink [] = Option.none := by
  simp only [ExpressionDetector.detectWink, nil_eyesLR]
  refine if_neg fun hh => ?_
  have h2 := hh.2
  norm_num at h2

lemma detectSad_nil : ExpressionDetector.detectSad [] = Option.none := by
  simp only [ExpressionDetector.detectSad]
  refine if_neg fun hh => ?_
  have h1 := hh.1
  rw [nil_smile] at h1
  norm_num [CONFIG_thresholds] at h1

lemma detectGlare_nil : ExpressionDetector.detectGlare [] = some ⟨ExpressionType.glare, 1⟩ := by
  simp only [ExpressionDetector.detectGlare]
  rw [if_pos ⟨by rw [nil_eye]; norm_num [CONFIG_thresholds],
    by rw [nil_smile]; norm_num [CONFIG_thresholds]⟩]
  rw [nil_eye]
  norm_num

/-- The empty landmark list classifies raw as `glare` at confidence 1 (all features
degrade to 0, and the glare rule accepts zero eye opening with no smile). -/
lemma rawExpression_nil : ExpressionDetector.rawExpression [] = ⟨ExpressionType.glare, 1⟩ := by
  simp [ExpressionDetector.rawExpression, ExpressionDetector.expressionRules, firstSome,
    detectScream_nil, detectShock_nil, detectTongue_nil, detectKissy_nil, detectHappy_nil,
    detectWink_nil, detectSad_nil, detectGlare_nil]

end ExprEvalNil

/-! ## Confidence bounds of the rules -/

section ConfBounds

lemma getDistance_nonneg (lms : List Landmark) (i j : ℕ) :
    0 ≤ ExpressionDetector.getDistance lms i j := by
  unfold ExpressionDetector.getDistance
  split
  · exact Real.sqrt_nonneg _
  · exact le_refl 0

lemma getEyeOpening_nonneg (lms : List Landmark) : 0 ≤ ExpressionDetector.getEyeOpening lms := by
  rw [ExpressionDetector.getEyeOpening]
  have h1 := getDistance_nonneg lms 159 145
  have h2 := getDistance_nonneg lms 386 374
  linarith

lemma getMouthOpening_nonneg (lms : List Landmark) :
    0 ≤ ExpressionDetector.getMouthOpening lms := by
  rw [ExpressionDetector.getMouthOpening]
  exact getDistance_nonneg lms 13 14

lemma getMouthPuckerRatio_nonneg (lms : List Landmark) :
    0 ≤ ExpressionDetector.getMouthPuckerRatio lms := by
  rw [ExpressionDetector.getMouthPuckerRatio]
  split_ifs with h
  · exact div_nonneg (getMouthOpening_nonneg lms) (le_of_lt h)
  · exact le_refl 0

lemma screamBounds {lms : List Landmark} {x : RawResult ExpressionType}
    (h : ExpressionDetector.detectScream lms = some x) :
    0 ≤ x.confidence ∧ (x.category ≠ ExpressionType.disgust → x.confidence ≤ 1) := by
  simp only [ExpressionDetector.detectScream] at h
  split_ifs at h with hc
  injection h with h2
  subst h2
  have hm := getMouthOpening_nonneg lms
  have he := getEyeOpening_nonneg lms
  refine ⟨le_min ?_ (by norm_num), fun _ => min_le_right _ _⟩
  have d1 : 0 ≤ ExpressionDetector.getMouthOpening lms / (CONFIG_thresholds.mouthOpen * 2.5) :=
    div_nonneg hm (by norm_num [CONFIG_thresholds])
  have d2 : 0 ≤ ExpressionDetector.getEyeOpening lms / CONFIG_thresholds.eyeOpening :=
    div_nonneg he (by norm_num [CONFIG_thresholds])
  linarith

lemma shockBounds {lms : List Landmark} {x : RawResult ExpressionType}
    (h : ExpressionDetector.detectShock lms = some x) :
    0 ≤ x.confidence ∧ (x.category ≠ ExpressionType.disgust → x.confidence ≤ 1) := by
  simp only [ExpressionDetector.detectShock] at h
  split_ifs at h with hc
  injection h with h2
  subst h2
  refine ⟨le_min ?_ (by norm_num), fun _ => min_le_right _ _⟩
  exact div_nonneg (getEyeOpening_nonneg lms) (by norm_num [CONFIG_thresholds])

lemma tongueBounds {lms : List Landmark} {x : RawResult ExpressionType}
    (h : ExpressionDetector.detectTongue lms = some x) :
    0 ≤ x.confidence ∧ (x.category ≠ ExpressionType.disgust → x.confidence ≤ 1) := by
  simp only [ExpressionDetector.detectTongue] at h
  split_ifs at h with hc
  injection h with h2
  subst h2
  refine ⟨le_min ?_ (by norm_num), fun _ => min_le_right _ _⟩
  exact div_nonneg (getMouthOpening_nonneg lms) (by norm_num [CONFIG_thresholds])

lemma kissyBounds {lms : List Landmark} {x : RawResult ExpressionType}
    (h : ExpressionDetector.detectKissy lms = some x) :
    0 ≤ x.confidence ∧ (x.category ≠ ExpressionType.disgust → x.confidence ≤ 1) := by
  simp only [ExpressionDetector.detectKissy] at h
  split_ifs at h with hc
  injection h with h2
  subst h2
  refine ⟨le_min ?_ (by norm_num), fun _ => min_le_right _ _⟩
  exact div_nonneg (getMouthPuckerRatio_nonneg lms) (by norm_num)

lemma happyBounds {lms : List Landmark} {x : RawResult ExpressionType}
    (h : ExpressionDetector.detectHappy lms = some x) :
    0 ≤ x.confidence ∧ (x.category ≠ ExpressionType.disgust → x.confidence ≤ 1) := by
  simp only [ExpressionDetector.detectHappy] at h
  split_ifs at h with hc
  injection h with h2
  subst h2
  have hs : (0 : ℝ) ≤ ExpressionDetector.getSmileRatio lms := by
    have h1 := hc.1
    norm_num [CONFIG_thresholds] at h1
    linarith
  refine ⟨le_min ?_ (by norm_num), fun _ => min_le_right _ _⟩
  exact div_nonneg hs (by norm_num [CONFIG_thresholds])

lemma sadBounds {lms : List Landmark} {x : RawResult ExpressionType}
    (h : ExpressionDetector.detectSad lms = some x) :
    0 ≤ x.confidence ∧ (x.category ≠ ExpressionType.disgust → x.confidence ≤ 1) := by
  simp only [ExpressionDetector.detectSad] at h
  split_ifs at h with hc
  injection h with h2
  subst h2
  refine ⟨le_min ?_ (by norm_num), fun _ => min_le_right _ _⟩
  exact div_nonneg (abs_nonneg _) (by norm_num [CONFIG_thresholds])

lemma winkBounds {lms : List Landmark} {x : RawResult ExpressionType}
    (h : ExpressionDetector.detectWink lms = some x) :
    0 ≤ x.confidence ∧ (x.category ≠ ExpressionType.disgust → x.confidence ≤ 1) := by
  simp only [ExpressionDetector.detectWink] at h
  split_ifs at h with hc
  injection h with h2
  subst h2
  have e1 := getDistance_nonneg lms 159 145
  have e2 := getDistance_nonneg lms 386 374
  have hmax : (0 : ℝ) < max (ExpressionDetector.getIndividualEyeOpenings lms).1
      (ExpressionDetector.getIndividualEyeOpenings lms).2 := by
    have h2c := hc.2
    norm_num at h2c
    linarith
  have hminnn : (0 : ℝ) ≤ min (ExpressionDetector.getIndividualEyeOpenings lms).1
      (ExpressionDetector.getIndividualEyeOpenings lms).2 := by
    rw [ExpressionDetector.getIndividualEyeOpenings]
    exact le_min e1 e2
  have hr0 : (0 : ℝ) ≤ min (ExpressionDetector.getIndividualEyeOpenings lms).1
        (ExpressionDetector.getIndividualEyeOpenings lms).2 /
      max (ExpressionDetector.getIndividualEyeOpenings lms).1
        (ExpressionDetector.getIndividualEyeOpenings lms).2 :=
    div_nonneg hminnn (le_of_lt hmax)
  have hr1 : min (ExpressionDetector.getIndividualEyeOpenings lms).1
        (ExpressionDetector.getIndividualEyeOpenings lms).2 /
      max (ExpressionDetector.getIndividualEyeOpenings lms).1
        (ExpressionDetector.getIndividualEyeOpenings lms).2 ≤ 1 :=
    div_le_one_of_le₀ min_le_max (le_of_lt hmax)
  constructor
  · show (0 : ℝ) ≤ 1 - _
    linarith
  · intro _
    show (1 : ℝ) - _ ≤ 1
    linarith

lemma glareBounds {lms : List Landmark} {x : RawResult ExpressionType}
    (h : ExpressionDetector.detectGlare lms = some x) :
    0 ≤ x.confidence ∧ (x.category ≠ ExpressionType.disgust → x.confidence ≤ 1) := by
  simp only [ExpressionDetector.detectGlare] at h
  split_ifs at h with hc
  injection h with h2
  subst h2
  have he := getEyeOpening_nonneg lms
  have hlt : ExpressionDetector.getEyeOpening lms < CONFIG_thresholds.squinting := hc.1
  have hq : ExpressionDetector.getEyeOpening lms / CONFIG_thresholds.squinting < 1 := by
    rw [div_lt_one (by norm_num [CONFIG_thresholds])]
    exact hlt
  have hq0 : 0 ≤ ExpressionDetector.getEyeOpening lms / CONFIG_thresholds.squinting :=
    div_nonneg he (by norm_num [CONFIG_thresholds])
  constructor
  · show (0 : ℝ) ≤ 1 - _
    linarith
  · intro _
    show (1 : ℝ) - _ ≤ 1
    linarith

lemma suspiciousBounds {lms : List Landmark} {x : RawResult ExpressionType}
    (h : ExpressionDetector.detectSuspicious lms = some x) :
    0 ≤ x.confidence ∧ (x.category ≠ ExpressionType.disgust → x.confidence ≤ 1) := by
  simp only [ExpressionDetector.detectSuspicious] at h
  split_ifs at h with hc
  injection h with h2
  subst h2
  have h1 : min (ExpressionDetector.getIndividualEyeOpenings lms).1
      (ExpressionDetector.getIndividualEyeOpenings lms).2 /
      max (ExpressionDetector.getIndividualEyeOpenings lms).1
      (ExpressionDetector.getIndividualEyeOpenings lms).2 < 0.8 := hc.1
  have h2c : CONFIG_thresholds.winkRatio < min (ExpressionDetector.getIndividualEyeOpenings lms).1
      (ExpressionDetector.getIndividualEyeOpenings lms).2 /
      max (ExpressionDetector.getIndividualEyeOpenings lms).1
      (ExpressionDetector.getIndividualEyeOpenings lms).2 := hc.2
  rw [show CONFIG_thresholds.winkRatio = (0.6 : ℝ) from rfl] at h2c
  constructor
  · show (0 : ℝ) ≤ 0.8 - _
    linarith
  · intro _
    show (0.8 : ℝ) - _ ≤ 1
    linarith

lemma sleepyBounds {lms : List Landmark} {x : RawResult ExpressionType}
    (h : ExpressionDetector.detectSleepy lms = some x) :
    0 ≤ x.confidence ∧ (x.category ≠ ExpressionType.disgust → x.confidence ≤ 1) := by
  simp only [ExpressionDetector.detectSleepy] at h
  split_ifs at h with hc
  injection h with h2
  subst h2
  have h1 : ExpressionDetector.getEyeOpening lms < CONFIG_thresholds.sleepyThreshold := hc.1
  have h2c : (0.008 : ℝ) < ExpressionDetector.getEyeOpening lms := by
    have := hc.2.1
    norm_num at this
    linarith
  have hq : ExpressionDetector.getEyeOpening lms / CONFIG_thresholds.sleepyThreshold < 1 := by
    rw [div_lt_one (by norm_num [CONFIG_thresholds])]
    exact h1
  have hq0 : 0 ≤ ExpressionDetector.getEyeOpening lms / CONFIG_thresholds.sleepyThreshold :=
    div_nonneg (by linarith) (by norm_num [CONFIG_thresholds])
  constructor
  · show (0 : ℝ) ≤ 1 - _
    linarith
  · intro _
    show (1 : ℝ) - _ ≤ 1
    linarith

lemma eyebrowBounds {lms : List Landmark} {x : RawResult ExpressionType}
    (h : ExpressionDetector.detectEyebrowRaise lms = some x) :
    0 ≤ x.confidence ∧ (x.category ≠ ExpressionType.disgust → x.confidence ≤ 1) := by
  simp only [ExpressionDetector.detectEyebrowRaise] at h
  split_ifs at h with hc
  injection h with h2
  subst h2
  have hb : (0 : ℝ) ≤ ExpressionDetector.getEyebrowHeight lms := by
    have h1 := hc.1
    norm_num [CONFIG_thresholds] at h1
    linarith
  refine ⟨le_min ?_ (by norm_num), fun _ => min_le_right _ _⟩
  exact div_nonneg hb (by norm_num [CONFIG_thresholds])

lemma poutBounds {lms : List Landmark} {x : RawResult ExpressionType}
    (h : ExpressionDetector.detectPout lms = some x) :
    0 ≤ x.confidence ∧ (x.category ≠ ExpressionType.disgust → x.confidence ≤ 1) := by
  unfold ExpressionDetector.detectPout at h
  split at h
  case _ lowerLip chin hll hch =>
    split_ifs at h with hc
    injection h with h2
    subst h2
    have hpr : (0 : ℝ) ≤ chin.y - lowerLip.y := by
      have := hc.1
      linarith
    refine ⟨le_min ?_ (by norm_num), fun _ => min_le_right _ _⟩
    exact div_nonneg hpr (by norm_num)
  case _ => exact absurd h (by simp)

lemma disgustBounds {lms : List Landmark} {x : RawResult ExpressionType}
    (h : ExpressionDetector.detectDisgust lms = some x) :
    0 ≤ x.confidence ∧ (x.category ≠ ExpressionType.disgust → x.confidence ≤ 1) := by
  unfold ExpressionDetector.detectDisgust at h
  split at h
  case _ upperLip nose hul hns =>
    split_ifs at h with hc
    injection h with h2
    subst h2
    constructor
    · show (0 : ℝ) ≤ 1 - _
      have h1 : upperLip.y - nose.y < 0.025 := hc.1
      have hd : (upperLip.y - nose.y) / 0.03 < 1 := by
        rw [div_lt_one (by norm_num)]
        linarith
      linarith
    · intro hne
      exact absurd rfl hne
  case _ => exact absurd h (by simp)

lemma confusedBounds {lms : List Landmark} {x : RawResult ExpressionType}
    (h : ExpressionDetector.detectConfused lms = some x) :
    0 ≤ x.confidence ∧ (x.category ≠ ExpressionType.disgust → x.confidence ≤ 1) := by
  simp only [ExpressionDetector.detectConfused] at h
  split_ifs at h with hc
  injection h with h2
  subst h2
  exact ⟨by norm_num, fun _ => by norm_num⟩

end ConfBounds

/-! ## First-match combinator lemmas -/

section FirstSomeLemmas

variable {β : Type}

lemma firstSome_getD_prop (P : β → Prop) (d : β) :
    ∀ l : List (Option β), (∀ o ∈ l, ∀ x, o = some x → P x) → P d →
      P ((firstSome l).getD d) := by
  intro l
  induction l with
  | nil => intro _ hd; exact hd
  | cons o rest ih =>
    intro hall hd
    match o with
    | Option.none =>
      simp only [firstSome]
      exact ih (fun o ho x hx => hall o (List.mem_cons_of_mem _ ho) x hx) hd
    | some r =>
      simp only [firstSome, Option.getD]
      exact hall (some r) (List.mem_cons_self _ _) r rfl

lemma firstSome_eq_of_minimal :
    ∀ (l : List (Option β)) (i : ℕ) (hi : i < l.length),
      (∀ k (hk : k < i), l.get ⟨k, lt_trans hk hi⟩ = Option.none) →
      l.get ⟨i, hi⟩ ≠ Option.none →
      firstSome l = l.get ⟨i, hi⟩ := by
  intro l
  induction l with
  | nil => intro i hi; simp at hi
  | cons o rest ih =>
    intro i hi hmin hfire
    match o with
    | Option.none =>
      match i with
      | 0 => simp at hfire
      | i + 1 =>
        have hi2 : i < rest.length := by simpa using hi
        have hmin2 : ∀ k (hk : k < i), rest.get ⟨k, lt_trans hk hi2⟩ = Option.none := by
          intro k hk
          have := hmin (k + 1) (by omega)
          simpa using this
        have hfire2 : rest.get ⟨i, hi2⟩ ≠ Option.none := by simpa using hfire
        simpa [firstSome] using ih i hi2 hmin2 hfire2
    | some r =>
      match i with
      | 0 => simp [firstSome]
      | i + 1 =>
        have := hmin 0 (by omega)
        simp at this

end FirstSomeLemmas

/-! ## Raw classifier confidence bounds -/

section RawBounds

lemma gestureRuleBounds {lms : List Landmark} {x : RawResult GestureType}
    (o : List Landmark → Option (RawResult GestureType))
    (ho : o ∈ GestureDetector.gestureRules) (h : o lms = some x) :
    0 ≤ x.confidence ∧ x.confidence ≤ 1 := by
  simp only [GestureDetector.gestureRules, List.mem_cons, List.not_mem_nil, or_false] at ho
  rcases ho with rfl | rfl | rfl | rfl | rfl | rfl | rfl | rfl | rfl
  · simp only [GestureDetector.detectMiddleFinger] at h
    split_ifs at h
    injection h with h2
    subst h2
    norm_num
  · simp only [GestureDetector.detectThumbsUp] at h
    split_ifs at h
    injection h with h2
    subst h2
    norm_num
  · simp only [GestureDetector.detectThumbsDown] at h
    split_ifs at h
    injection h with h2
    subst h2
    norm_num
  · simp only [GestureDetector.detectPeace] at h
    split_ifs at h
    injection h with h2
    subst h2
    norm_num
  · unfold GestureDetector.detectOK at h
    split at h
    case _ =>
      dsimp only [] at h
      split_ifs at h
      injection h with h2
      subst h2
      norm_num
    case _ => exact absurd h (by simp)
  · simp only [GestureDetector.detectRockOn] at h
    split_ifs at h
    injection h with h2
    subst h2
    norm_num
  · simp only [GestureDetector.detectPointing] at h
    split_ifs at h
    injection h with h2
    subst h2
    norm_num
  · simp only [GestureDetector.detectWave] at h
    split_ifs at h
    injection h with h2
    subst h2
    norm_num
  · simp only [GestureDetector.detectFist] at h
    split_ifs at h
    injection h with h2
    subst h2
    norm_num

/-- Every raw gesture confidence lies in [0, 1]. -/
lemma rawGesture_conf_bounds (lms : List Landmark) :
    0 ≤ (GestureDetector.rawGesture lms).confidence ∧
      (GestureDetector.rawGesture lms).confidence ≤ 1 := by
  rw [GestureDetector.rawGesture]
  refine firstSome_getD_prop (fun x : RawResult GestureType => 0 ≤ x.confidence ∧ x.confidence ≤ 1) _ _ ?_ (by norm_num)
  intro o ho x hx
  rcases List.mem_map.mp ho with ⟨d, hd, rfl⟩
  exact gestureRuleBounds d hd hx

/-- Every raw expression confidence is nonnegative, and is at most 1 whenever the
firing rule is not `disgust` (the one rule whose ratio is unclamped). -/
lemma rawExpression_conf_bounds (lms : List Landmark) :
    0 ≤ (ExpressionDetector.rawExpression lms).confidence ∧
      ((ExpressionDetector.rawExpression lms).category ≠ ExpressionType.disgust →
        (ExpressionDetector.rawExpression lms).confidence ≤ 1) := by
  rw [ExpressionDetector.rawExpression]
  refine firstSome_getD_prop
    (fun x : RawResult ExpressionType =>
      0 ≤ x.confidence ∧ (x.category ≠ ExpressionType.disgust → x.confidence ≤ 1)) _ _
    ?_ (by norm_num)
  intro o ho x hx
  rcases List.mem_map.mp ho with ⟨d, hd, rfl⟩
  simp only [ExpressionDetector.expressionRules, List.mem_cons, List.not_mem_nil, or_false] at hd
  rcases hd with rfl | rfl | rfl | rfl | rfl | rfl | rfl | rfl | rfl | rfl | rfl | rfl | rfl | rfl
  · exact screamBounds hx
  · exact shockBounds hx
  · exact tongueBounds hx
  · exact kissyBounds hx
  · exact happyBounds hx
  · exact winkBounds hx
  · exact sadBounds hx
  · exact glareBounds hx
  · exact suspiciousBounds hx
  · exact sleepyBounds hx
  · exact eyebrowBounds hx
  · exact poutBounds hx
  · exact disgustBounds hx
  · exact confusedBounds hx

/-- The confidence returned by an `analyze` step is 0 on the short-input path and the
raw per-frame confidence otherwise, regardless of the stabilizer transition taken. -/
lemma stabAnalyze_confidence {α : Type} [DecidableEq α] (minLen : ℕ) (dflt : α)
    (raw : List Landmark → RawResult α) (s : StabState α) (landmarks : List Landmark)
    (now : ℤ) :
    ((stabAnalyze minLen dflt raw s landmarks now).2).confidence =
      if landmarks.length < minLen then 0 else (raw landmarks).confidence := by
  by_cases hg : landmarks.length < minLen
  · rw [stabAnalyze_short hg, if_pos hg]
  rw [if_neg hg]
  by_cases hsm : smoothedVal dflt raw s landmarks = s.current
  · rw [stabAnalyze_same hg hsm]
  by_cases hp : s.pending = some (smoothedVal dflt raw s landmarks)
  · by_cases ht : CONFIG_transitions.holdTime ≤ now - s.holdStartTime
    · by_cases hd : CONFIG_transitions.debounce ≤ now - s.lastSwitchTime
      · rw [stabAnalyze_commit hg hsm hp ht hd]
      · rw [stabAnalyze_debounceFail hg hsm hp ht hd]
    · rw [stabAnalyze_holdFail hg hsm hp ht]
  · rw [stabAnalyze_newPending hg hsm hp]

end RawBounds

/-! ## Selection pool lemmas -/

section MemeLemmas

lemma randIndex_lt {r : ℚ} {n : ℕ} (h0 : 0 ≤ r) (h1 : r < 1) (hn : 0 < n) :
    randIndex r n < n := by
  rw [randIndex]
  have h2 : ⌊r * (n : ℚ)⌋ < (n : ℤ) := by
    apply Int.floor_lt.mpr
    push_cast
    calc r * n < 1 * n := by
          apply mul_lt_mul_of_pos_right h1
          exact_mod_cast hn
    _ = n := one_mul _
  have h3 : (0 : ℤ) ≤ ⌊r * (n : ℚ)⌋ := Int.floor_nonneg.mpr (by positivity)
  omega

lemma getRandomMeme_other {pool recent : DetectionType → List String} {ty d : DetectionType}
    {r : ℚ} (h : ty ≠ d) : (getRandomMeme pool recent ty r).2 d = recent d := by
  by_cases h1 : (pool ty).length = 0
  · rw [getRandomMeme, if_pos h1]
    split_ifs <;> rfl
  · rw [getRandomMeme, if_neg h1]
    dsimp only
    rw [if_neg (Ne.symm h)]

lemma getRandomMeme_fallback {pool recent : DetectionType → List String} {ty : DetectionType}
    {r : ℚ} (h : (pool ty).length = 0) :
    (getRandomMeme pool recent ty r).2 = recent ∧
      (getRandomMeme pool recent ty r).1 =
        (if 0 < (pool neutralKey).length then
          some ((pool neutralKey).getD (randIndex r (pool neutralKey).length) "")
        else Option.none) := by
  constructor
  · rw [getRandomMeme, if_pos h]
    split_ifs <;> rfl
  · rw [getRandomMeme, if_pos h]
    split_ifs <;> rfl

lemma getRandomMeme_main {pool recent : DetectionType → List String} {ty : DetectionType}
    {r : ℚ} (hnd : (pool ty).Nodup) (h4 : 4 ≤ (pool ty).length)
    (hrl : (recent ty).length ≤ 3) (h0 : 0 ≤ r) (h1 : r < 1) :
    ∃ sel, getRandomMeme pool recent ty r =
        (some sel, fun d => if d = ty then
            (if RECENT_HISTORY_SIZE < (recent ty ++ [sel]).length then (recent ty ++ [sel]).tail
             else recent ty ++ [sel])
          else recent d) ∧
      sel ∈ pool ty ∧ ¬sel ∈ recent ty := by
  have hne : ¬(pool ty).length = 0 := by omega
  have havail0 : ¬((pool ty).filter (fun m => ¬m ∈ recent ty)).length = 0 := by
    intro hh
    rw [List.length_eq_zero] at hh
    have hsub : ∀ x ∈ pool ty, x ∈ recent ty := by
      intro x hx
      by_contra hnx
      have hmem : x ∈ (pool ty).filter (fun m => ¬m ∈ recent ty) :=
        List.mem_filter.mpr ⟨hx, by simpa using hnx⟩
      rw [hh] at hmem
      simp at hmem
    have hcard : (pool ty).toFinset ⊆ (recent ty).toFinset := fun x hx =>
      List.mem_toFinset.mpr (hsub x (List.mem_toFinset.mp hx))
    have h1c := List.toFinset_card_of_nodup hnd
    have h2c := (recent ty).toFinset_card_le
    have h3c := Finset.card_le_card hcard
    omega
  have hpos : 0 < ((pool ty).filter (fun m => ¬m ∈ recent ty)).length :=
    Nat.pos_of_ne_zero havail0
  have hidx := randIndex_lt h0 h1 hpos
  refine ⟨((pool ty).filter (fun m => ¬m ∈ recent ty)).getD
    (randIndex r ((pool ty).filter (fun m => ¬m ∈ recent ty)).length) "", ?_, ?_⟩
  · rw [getRandomMeme, if_neg hne]
    dsimp only
    rw [if_neg havail0]
  · have hsel : ((pool ty).filter (fun m => ¬m ∈ recent ty)).getD
        (randIndex r ((pool ty).filter (fun m => ¬m ∈ recent ty)).length) "" ∈
        (pool ty).filter (fun m => ¬m ∈ recent ty) := by
      rw [List.getD_eq_getElem _ _ hidx]
      exact List.getElem_mem hidx
    have hm := List.mem_filter.mp hsel
    exact ⟨hm.1, by simpa using hm.2⟩

lemma lastThree_length_le (l : List String) : (lastThree l).length ≤ 3 := by
  rw [lastThree, RECENT_HISTORY_SIZE]
  rw [List.length_drop]
  omega

lemma lastThree_of_short {l : List String} (h : l.length ≤ 3) : lastThree l = l := by
  rw [lastThree, RECENT_HISTORY_SIZE]
  have : l.length - 3 = 0 := by omega
  rw [this, List.drop_zero]

lemma lastThree_snoc (l : List String) (x : String) :
    (if RECENT_HISTORY_SIZE < (lastThree l ++ [x]).length then (lastThree l ++ [x]).tail
     else lastThree l ++ [x]) = lastThree (l ++ [x]) := by
  rcases le_or_lt l.length 2 with h | h
  · rw [if_neg ?hc, lastThree_of_short (by omega), lastThree_of_short (by simp; omega)]
    case hc =>
      rw [lastThree_of_short (by omega)]
      simp [RECENT_HISTORY_SIZE]
      omega
  · have hlen : (lastThree l).length = 3 := by
      rw [lastThree, RECENT_HISTORY_SIZE, List.length_drop]
      omega
    rw [if_pos (by simp [hlen, RECENT_HISTORY_SIZE])]
    have hne : lastThree l ≠ [] := by
      intro hh
      rw [hh] at hlen
      simp at hlen
    obtain ⟨a, as, ha⟩ := List.exists_cons_of_ne_nil hne
    rw [ha]
    have htail : (a :: as ++ [x]).tail = as ++ [x] := rfl
    rw [htail]
    have h2 : as = l.drop (l.length - 2) := by
      have : as = (lastThree l).tail := by rw [ha]; rfl
      rw [this, lastThree, RECENT_HISTORY_SIZE, List.tail_drop]
      congr 1
      omega
    rw [h2, lastThree, RECENT_HISTORY_SIZE, List.drop_append_eq_append_drop]
    have h3 : l.length + 1 - 3 = l.length - 2 := by omega
    have h4 : (l ++ [x]).length - 3 = l.length - 2 := by
      rw [List.length_append, List.length_singleton]
      omega
    rw [h4]
    have h5 : l.length - 2 - l.length = 0 := by omega
    rw [h5, List.drop_zero]

lemma mem_lastThree_of_index (l : List String) (i : ℕ) (hi : i < l.length)
    (h3 : l.length ≤ i + 3) : l.get ⟨i, hi⟩ ∈ lastThree l := by
  have hg : l.get ⟨i, hi⟩ = l[i] := rfl
  rw [hg, lastThree, RECENT_HISTORY_SIZE, List.mem_iff_getElem]
  refine ⟨i - (l.length - 3), by rw [List.length_drop]; omega, ?_⟩
  rw [List.getElem_drop]
  congr 1
  omega

end MemeLemmas

/-! ## Run-level selection pool invariants -/

section MemeRunLemmas

/-- Core invariant of the recent buffer for a category `c` with a nodup pool of at
least 4 assets: along any call sequence (any interleaving of categories, any draws in
[0,1)), the buffer for `c` is exactly the last three `c`-picks, and every `c`-pick
avoids the last three `c`-picks before it. -/
lemma pickList_spec (pool : DetectionType → List String) (c : DetectionType)
    (hnd : (pool c).Nodup) (h4 : 4 ≤ (pool c).length) :
    ∀ (inputs : List (DetectionType × ℚ)) (recent : DetectionType → List String)
      (prev : List String),
      (∀ p ∈ inputs, 0 ≤ p.2 ∧ p.2 < 1) →
      recent c = lastThree prev →
      (runMemes pool recent inputs c =
        lastThree (prev ++ pickList pool c recent inputs)) ∧
      (∀ j x, (pickList pool c recent inputs)[j]? = some x →
        x ∉ lastThree (prev ++ (pickList pool c recent inputs).take j)) := by
  intro inputs
  induction inputs with
  | nil =>
    intro recent prev hr hinv
    constructor
    · simpa [runMemes, pickList] using hinv
    · intro j x hx
      simp [pickList] at hx
  | cons p rest ih =>
    obtain ⟨ty, r⟩ := p
    intro recent prev hr hinv
    by_cases hty : ty = c
    · subst hty
      have hrl : (recent ty).length ≤ 3 := by
        rw [hinv]
        exact lastThree_length_le prev
      have hr0 := (hr (ty, r) (List.mem_cons_self _ _)).1
      have hr1 := (hr (ty, r) (List.mem_cons_self _ _)).2
      obtain ⟨sel, heq, _hmemp, hnotin⟩ := getRandomMeme_main hnd h4 hrl hr0 hr1
      have hrec2 : (getRandomMeme pool recent ty r).2 ty = lastThree (prev ++ [sel]) := by
        rw [heq]
        dsimp only
        rw [if_pos rfl, hinv]
        exact lastThree_snoc prev sel
      have hfst : (getRandomMeme pool recent ty r).1 = some sel := by rw [heq]
      have hpl : pickList pool ty recent ((ty, r) :: rest) =
          sel :: pickList pool ty (getRandomMeme pool recent ty r).2 rest := by
        simp [pickList, hfst]
      have hrm : runMemes pool recent ((ty, r) :: rest) =
          runMemes pool (getRandomMeme pool recent ty r).2 rest := by
        simp only [runMemes]
      have hih := ih (getRandomMeme pool recent ty r).2 (prev ++ [sel])
        (fun q hq => hr q (List.mem_cons_of_mem _ hq)) hrec2
      constructor
      · rw [hrm, hpl, hih.1, List.append_assoc]
        rfl
      · intro j x hx
        rw [hpl] at hx ⊢
        match j, hx with
        | 0, hx =>
          have hx2 : x = sel := by simpa using hx.symm
          subst hx2
          rw [List.take_zero, List.append_nil]
          intro hmem
          rw [← hinv] at hmem
          exact hnotin hmem
        | j + 1, hx =>
          have hx2 : (pickList pool ty (getRandomMeme pool recent ty r).2 rest)[j]? =
              some x := by simpa using hx
          have hres := hih.2 j x hx2
          rw [List.take_succ_cons]
          intro hmem
          apply hres
          rw [show prev ++ [sel] ++
              (pickList pool ty (getRandomMeme pool recent ty r).2 rest).take j =
              prev ++ sel ::
              (pickList pool ty (getRandomMeme pool recent ty r).2 rest).take j by
            rw [List.append_assoc]
            rfl]
          exact hmem
    · have hrec : (getRandomMeme pool recent ty r).2 c = recent c := getRandomMeme_other hty
      have hpl : pickList pool c recent ((ty, r) :: rest) =
          pickList pool c (getRandomMeme pool recent ty r).2 rest := by
        simp [pickList, hty]
      have hih := ih (getRandomMeme pool recent ty r).2 prev
        (fun q hq => hr q (List.mem_cons_of_mem _ hq)) (by rw [hrec, hinv])
      constructor
      · have hrm : runMemes pool recent ((ty, r) :: rest) =
            runMemes pool (getRandomMeme pool recent ty r).2 rest := by
          simp only [runMemes]
        rw [hrm, hpl]
        exact hih.1
      · intro j x hx
        rw [hpl] at hx ⊢
        exact hih.2 j x hx

/-- With a nonempty pool for `c`, the returned options for `c` are exactly the picked
strings. -/
lemma picksFor_eq_map (pool : DetectionType → List String) (c : DetectionType)
    (hne : (pool c).length ≠ 0) :
    ∀ (inputs : List (DetectionType × ℚ)) (recent : DetectionType → List String),
      picksFor pool c recent inputs = (pickList pool c recent inputs).map some := by
  intro inputs
  induction inputs with
  | nil => intro recent; simp [picksFor, pickList]
  | cons p rest ih =>
    obtain ⟨ty, r⟩ := p
    intro recent
    by_cases hty : ty = c
    · subst hty
      have hfst : ∃ sel, (getRandomMeme pool recent ty r).1 = some sel := by
        rw [getRandomMeme, if_neg hne]
        dsimp only
        exact ⟨_, rfl⟩
      obtain ⟨sel, hsel⟩ := hfst
      have h1 : picksFor pool ty recent ((ty, r) :: rest) =
          some sel :: picksFor pool ty (getRandomMeme pool recent ty r).2 rest := by
        simp [picksFor, hsel]
      have h2 : pickList pool ty recent ((ty, r) :: rest) =
          sel :: pickList pool ty (getRandomMeme pool recent ty r).2 rest := by
        simp [pickList, hsel]
      rw [h1, h2, List.map]
      exact congrArg _ (ih _)
    · have h1 : picksFor pool c recent ((ty, r) :: rest) =
          picksFor pool c (getRandomMeme pool recent ty r).2 rest := by
        simp [picksFor, hty]
      have h2 : pickList pool c recent ((ty, r) :: rest) =
          pickList pool c (getRandomMeme pool recent ty r).2 rest := by
        simp [pickList, hty]
      rw [h1, h2]
      exact ih _

/-- Every recent buffer stays within the capacity 3 after one call. -/
lemma getRandomMeme_length_le {pool recent : DetectionType → List String} {ty : DetectionType}
    {r : ℚ} (d : DetectionType) (h : (recent d).length ≤ 3) :
    (((getRandomMeme pool recent ty r).2) d).length ≤ 3 := by
  by_cases h1 : (pool ty).length = 0
  · rw [(getRandomMeme_fallback h1).1]
    exact h
  · by_cases hd : d = ty
    · subst hd
      rw [getRandomMeme, if_neg h1]
      dsimp only
      rw [if_pos rfl]
      split_ifs <;>
        · simp only [List.length_tail, List.length_append, List.length_singleton,
            RECENT_HISTORY_SIZE] at *
          omega
    · rw [getRandomMeme_other fun hh => hd hh.symm]
      exact h

/-- Every recent buffer stays within the capacity 3 along any run. -/
lemma runMemes_length_le (pool : DetectionType → List String) :
    ∀ (inputs : List (DetectionType × ℚ)) (recent : DetectionType → List String),
      (∀ d, (recent d).length ≤ 3) →
      ∀ d, ((runMemes pool recent inputs) d).length ≤ 3 := by
  intro inputs
  induction inputs with
  | nil => intro recent h d; simpa [runMemes] using h d
  | cons p rest ih =>
    obtain ⟨ty, r⟩ := p
    intro recent h d
    have hstep : ∀ e, (((getRandomMeme pool recent ty r).2) e).length ≤ 3 := fun e =>
      getRandomMeme_length_le e (h e)
    have hrm : runMemes pool recent ((ty, r) :: rest) =
        runMemes pool (getRandomMeme pool recent ty r).2 rest := by
      simp only [runMemes]
    rw [hrm]
    exact ih _ hstep d

end MemeRunLemmas

/-! ## Concrete stepping helpers for gesture runs -/

section GestureStepHelpers

lemma gstep_newPending (hist : List GestureType) (ls : ℤ) (cur : GestureType) (hs : ℤ)
    (pend : Option GestureType) (lms : List Landmark) (now : ℤ) (g sm : GestureType)
    (hlen : 21 ≤ lms.length) (hraw : (GestureDetector.rawGesture lms).category = g)
    (hsm : mostCommonFirst (pushHist hist g) GestureType.none = sm)
    (hne : sm ≠ cur) (hp : pend ≠ some sm) :
    (stabAnalyze 21 GestureType.none GestureDetector.rawGesture ⟨hist, ls, cur, hs, pend⟩
      lms now).1 = ⟨pushHist hist g, ls, cur, now, some sm⟩ := by
  have hsm2 : smoothedVal GestureType.none GestureDetector.rawGesture
      ⟨hist, ls, cur, hs, pend⟩ lms = sm := by
    rw [smoothedVal, hraw]
    exact hsm
  rw [stabAnalyze_newPending (by omega) (by rw [hsm2]; exact hne) (by rw [hsm2]; exact hp)]
  rw [hraw, hsm2]

lemma gstep_holdFail (hist : List GestureType) (ls : ℤ) (cur : GestureType) (hs : ℤ)
    (pend : Option GestureType) (lms : List Landmark) (now : ℤ) (g sm : GestureType)
    (hlen : 21 ≤ lms.length) (hraw : (GestureDetector.rawGesture lms).category = g)
    (hsm : mostCommonFirst (pushHist hist g) GestureType.none = sm)
    (hne : sm ≠ cur) (hp : pend = some sm) (ht : now - hs < 300) :
    (stabAnalyze 21 GestureType.none GestureDetector.rawGesture ⟨hist, ls, cur, hs, pend⟩
      lms now).1 = ⟨pushHist hist g, ls, cur, hs, pend⟩ := by
  have hsm2 : smoothedVal GestureType.none GestureDetector.rawGesture
      ⟨hist, ls, cur, hs, pend⟩ lms = sm := by
    rw [smoothedVal, hraw]
    exact hsm
  rw [stabAnalyze_holdFail (by omega) (by rw [hsm2]; exact hne) (by rw [hsm2]; exact hp)
    (by rw [show CONFIG_transitions.holdTime = 300 from rfl]; simp only []; omega)]
  rw [hraw]

lemma gstep_commit (hist : List GestureType) (ls : ℤ) (cur : GestureType) (hs : ℤ)
    (pend : Option GestureType) (lms : List Landmark) (now : ℤ) (g sm : GestureType)
    (hlen : 21 ≤ lms.length) (hraw : (GestureDetector.rawGesture lms).category = g)
    (hsm : mostCommonFirst (pushHist hist g) GestureType.none = sm)
    (hne : sm ≠ cur) (hp : pend = some sm) (ht : 300 ≤ now - hs) (hd : 500 ≤ now - ls) :
    (stabAnalyze 21 GestureType.none GestureDetector.rawGesture ⟨hist, ls, cur, hs, pend⟩
      lms now).1 = ⟨pushHist hist g, now, sm, hs, Option.none⟩ := by
  have hsm2 : smoothedVal GestureType.none GestureDetector.rawGesture
      ⟨hist, ls, cur, hs, pend⟩ lms = sm := by
    rw [smoothedVal, hraw]
    exact hsm
  rw [stabAnalyze_commit (by omega) (by rw [hsm2]; exact hne) (by rw [hsm2]; exact hp)
    (by rw [show CONFIG_transitions.holdTime = 300 from rfl]; simp only []; omega)
    (by rw [show CONFIG_transitions.debounce = 500 from rfl]; simp only []; omega)]
  rw [hraw, hsm2]

end GestureStepHelpers

/-- C1: a fresh `GestureDetector` with the default configuration receiving 20
`analyze` calls that alternate every frame (33 ms apart) between a hand landmark set
classifying raw as `fist` and one classifying raw as `peace` keeps the stabilized
current gesture at its initial default `none` for the whole 20-frame sequence: the
pending candidate keeps resetting its hold timer. -/
theorem C1_alternating_fist_peace_keeps_none
    (A B : List Landmark) (t0 : ℤ) (hA : 21 ≤ A.length) (hB : 21 ≤ B.length)
    (hrawA : (GestureDetector.rawGesture A).category = GestureType.fist)
    (hrawB : (GestureDetector.rawGesture B).category = GestureType.peace) :
    ∀ k, k ≤ 20 →
      (GestureDetector.seq (fun n => if n % 2 = 0 then A else B)
        (fun n => t0 + 33 * n) k).current = GestureType.none := by
  have e0 : GestureDetector.seq (fun n => if n % 2 = 0 then A else B)
      (fun n => t0 + 33 * n) 0 = ⟨[], 0, GestureType.none, 0, Option.none⟩ := rfl
  have hsucc : ∀ n, GestureDetector.seq (fun n => if n % 2 = 0 then A else B)
      (fun n => t0 + 33 * n) (n + 1) =
      (stabAnalyze 21 GestureType.none GestureDetector.rawGesture
        (GestureDetector.seq (fun n => if n % 2 = 0 then A else B)
          (fun n => t0 + 33 * n) n)
        (if n % 2 = 0 then A else B) (t0 + 33 * ((n : ℕ) : ℤ))).1 := fun _ => rfl
  have e1 : GestureDetector.seq (fun n => if n % 2 = 0 then A else B)
      (fun n => t0 + 33 * n) 1 = ⟨[GestureType.fist], 0, GestureType.none, t0 + 33 * ((0 : ℕ) : ℤ), some GestureType.fist⟩ := by
    rw [hsucc 0, e0, show (if 0 % 2 = 0 then A else B) = A from by norm_num]
    rw [gstep_newPending [] 0 GestureType.none 0 Option.none A (t0 + 33 * ((0 : ℕ) : ℤ)) GestureType.fist GestureType.fist
      hA hrawA (by decide) (by decide) (by decide)]
    simp [pushHist, CONFIG_transitions]
  have e2 : GestureDetector.seq (fun n => if n % 2 = 0 then A else B)
      (fun n => t0 + 33 * n) 2 = ⟨[GestureType.fist, GestureType.peace], 0, GestureType.none, t0 + 33 * ((0 : ℕ) : ℤ), some GestureType.fist⟩ := by
    rw [hsucc 1, e1, show (if 1 % 2 = 0 then A else B) = B from by norm_num]
    rw [gstep_holdFail [GestureType.fist] 0 GestureType.none (t0 + 33 * ((0 : ℕ) : ℤ)) (some GestureType.fist) B (t0 + 33 * ((1 : ℕ) : ℤ)) GestureType.peace GestureType.fist
      hB hrawB (by decide) (by decide) (by decide) (by omega)]
    simp [pushHist, CONFIG_transitions]
  have e3 : GestureDetector.seq (fun n => if n % 2 = 0 then A else B)
      (fun n => t0 + 33 * n) 3 = ⟨[GestureType.fist, GestureType.peace, GestureType.fist], 0, GestureType.none, t0 + 33 * ((0 : ℕ) : ℤ), some GestureType.fist⟩ := by
    rw [hsucc 2, e2, show (if 2 % 2 = 0 then A else B) = A from by norm_num]
    rw [gstep_holdFail ([GestureType.fist, GestureType.peace]) 0 GestureType.none (t0 + 33 * ((0 : ℕ) : ℤ)) (some GestureType.fist) A (t0 + 33 * ((2 : ℕ) : ℤ)) GestureType.fist GestureType.fist
      hA hrawA (by decide) (by decide) (by decide) (by omega)]
    simp [pushHist, CONFIG_transitions]
  have e4 : GestureDetector.seq (fun n => if n % 2 = 0 then A else B)
      (fun n => t0 + 33 * n) 4 = ⟨[GestureType.fist, GestureType.peace, GestureType.fist, GestureType.peace], 0, GestureType.none, t0 + 33 * ((0 : ℕ) : ℤ), some GestureType.fist⟩ := by
    rw [hsucc 3, e3, show (if 3 % 2 = 0 then A else B) = B from by norm_num]
    rw [gstep_holdFail ([GestureType.fist, GestureType.peace, GestureType.fist]) 0 GestureType.none (t0 + 33 * ((0 : ℕ) : ℤ)) (some GestureType.fist) B (t0 + 33 * ((3 : ℕ) : ℤ)) GestureType.peace GestureType.fist
      hB hrawB (by decide) (by decide) (by decide) (by omega)]
    simp [pushHist, CONFIG_transitions]
  have e5 : GestureDetector.seq (fun n => if n % 2 = 0 then A else B)
      (fun n => t0 + 33 * n) 5 = ⟨[GestureType.fist, GestureType.peace, GestureType.fist, GestureType.peace, GestureType.fist], 0, GestureType.none, t0 + 33 * ((0 : ℕ) : ℤ), some GestureType.fist⟩ := by
    rw [hsucc 4, e4, show (if 4 % 2 = 0 then A else B) = A from by norm_num]
    rw [gstep_holdFail ([GestureType.fist, GestureType.peace, GestureType.fist, GestureType.peace]) 0 GestureType.none (t0 + 33 * ((0 : ℕ) : ℤ)) (some GestureType.fist) A (t0 + 33 * ((4 : ℕ) : ℤ)) GestureType.fist GestureType.fist
      hA hrawA (by decide) (by decide) (by decide) (by omega)]
    simp [pushHist, CONFIG_transitions]
  have e6 : GestureDetector.seq (fun n => if n % 2 = 0 then A else B)
      (fun n => t0 + 33 * n) 6 = ⟨[GestureType.fist, GestureType.peace, GestureType.fist, GestureType.peace, GestureType.fist, GestureType.peace], 0, GestureType.none, t0 + 33 * ((0 : ℕ) : ℤ), some GestureType.fist⟩ := by
    rw [hsucc 5, e5, show (if 5 % 2 = 0 then A else B) = B from by norm_num]
    rw [gstep_holdFail ([GestureType.fist, GestureType.peace, GestureType.fist, GestureType.peace, GestureType.fist]) 0 GestureType.none (t0 + 33 * ((0 : ℕ) : ℤ)) (some GestureType.fist) B (t0 + 33 * ((5 : ℕ) : ℤ)) GestureType.peace GestureType.fist
      hB hrawB (by decide) (by decide) (by decide) (by omega)]
    simp [pushHist, CONFIG_transitions]
  have e7 : GestureDetector.seq (fun n => if n % 2 = 0 then A else B)
      (fun n => t0 + 33 * n) 7 = ⟨[GestureType.fist, GestureType.peace, GestureType.fist, GestureType.peace, GestureType.fist, GestureType.peace, GestureType.fist], 0, GestureType.none, t0 + 33 * ((0 : ℕ) : ℤ), some GestureType.fist⟩ := by
    rw [hsucc 6, e6, show (if 6 % 2 = 0 then A else B) = A from by norm_num]
    rw [gstep_holdFail ([GestureType.fist, GestureType.peace, GestureType.fist, GestureType.peace, GestureType.fist, GestureType.peace]) 0 GestureType.none (t0 + 33 * ((0 : ℕ) : ℤ)) (some GestureType.fist) A (t0 + 33 * ((6 : ℕ) : ℤ)) GestureType.fist GestureType.fist
      hA hrawA (by decide) (by decide) (by decide) (by omega)]
    simp [pushHist, CONFIG_transitions]
  have e8 : GestureDetector.seq (fun n => if n % 2 = 0 then A else B)
      (fun n => t0 + 33 * n) 8 = ⟨[GestureType.fist, GestureType.peace, GestureType.fist, GestureType.peace, GestureType.fist, GestureType.peace, GestureType.fist, GestureType.peace], 0, GestureType.none, t0 + 33 * ((0 : ℕ) : ℤ), some GestureType.fist⟩ := by
    rw [hsucc 7, e7, show (if 7 % 2 = 0 then A else B) = B from by norm_num]
    rw [gstep_holdFail ([GestureType.fist, GestureType.peace, GestureType.fist, GestureType.peace, GestureType.fist, GestureType.peace, GestureType.fist]) 0 GestureType.none (t0 + 33 * ((0 : ℕ) : ℤ)) (some GestureType.fist) B (t0 + 33 * ((7 : ℕ) : ℤ)) GestureType.peace GestureType.fist
      hB hrawB (by decide) (by decide) (by decide) (by omega)]
    simp [pushHist, CONFIG_transitions]
  have e9 : GestureDetector.seq (fun n => if n % 2 = 0 then A else B)
      (fun n => t0 + 33 * n) 9 = ⟨[GestureType.fist, GestureType.peace, GestureType.fist, GestureType.peace, GestureType.fist, GestureType.peace, GestureType.fist, GestureType.peace, GestureType.fist], 0, GestureType.none, t0 + 33 * ((0 : ℕ) : ℤ), some GestureType.fist⟩ := by
    rw [hsucc 8, e8, show (if 8 % 2 = 0 then A else B) = A from by norm_num]
    rw [gstep_holdFail ([GestureType.fist, GestureType.peace, GestureType.fist, GestureType.peace, GestureType.fist, GestureType.peace, GestureType.fist, GestureType.peace]) 0 GestureType.none (t0 + 33 * ((0 : ℕ) : ℤ)) (some GestureType.fist) A (t0 + 33 * ((8 : ℕ) : ℤ)) GestureType.fist GestureType.fist
      hA hrawA (by decide) (by decide) (by decide) (by omega)]
    simp [pushHist, CONFIG_transitions]
  have e10 : GestureDetector.seq (fun n => if n % 2 = 0 then A else B)
      (fun n => t0 + 33 * n) 10 = ⟨[GestureType.fist, GestureType.peace, GestureType.fist, GestureType.peace, GestureType.fist, GestureType.peace, GestureType.fist, GestureType.peace, GestureType.fist, GestureType.peace], 0, GestureType.none, t0 + 33 * ((0 : ℕ) : ℤ), some GestureType.fist⟩ := by
    rw [hsucc 9, e9, show (if 9 % 2 = 0 then A else B) = B from by norm_num]
    rw [gstep_holdFail ([GestureType.fist, GestureType.peace, GestureType.fist, GestureType.peace, GestureType.fist, GestureType.peace, GestureType.fist, GestureType.peace, GestureType.fist]) 0 GestureType.none (t0 + 33 * ((0 : ℕ) : ℤ)) (some GestureType.fist) B (t0 + 33 * ((9 : ℕ) : ℤ)) GestureType.peace GestureType.fist
      hB hrawB (by decide) (by decide) (by decide) (by omega)]
    simp [pushHist, CONFIG_transitions]
  have e11 : GestureDetector.seq (fun n => if n % 2 = 0 then A else B)
      (fun n => t0 + 33 * n) 11 = ⟨[GestureType.peace, GestureType.fist, GestureType.peace, GestureType.fist, GestureType.peace, GestureType.fist, GestureType.peace, GestureType.fist, GestureType.peace, GestureType.fist], 0, GestureType.none, t0 + 33 * ((10 : ℕ) : ℤ), some GestureType.peace⟩ := by
    rw [hsucc 10, e10, show (if 10 % 2 = 0 then A else B) = A from by norm_num]
    rw [gstep_newPending ([GestureType.fist, GestureType.peace, GestureType.fist, GestureType.peace, GestureType.fist, GestureType.peace, GestureType.fist, GestureType.peace, GestureType.fist, GestureType.peace]) 0 GestureType.none (t0 + 33 * ((0 : ℕ) : ℤ)) (some GestureType.fist) A (t0 + 33 * ((10 : ℕ) : ℤ)) GestureType.fist GestureType.peace
      hA hrawA (by decide) (by decide) (by decide)]
    simp [pushHist, CONFIG_transitions]
  have e12 : GestureDetector.seq (fun n => if n % 2 = 0 then A else B)
      (fun n => t0 + 33 * n) 12 = ⟨[GestureType.fist, GestureType.peace, GestureType.fist, GestureType.peace, GestureType.fist, GestureType.peace, GestureType.fist, GestureType.peace, GestureType.fist, GestureType.peace], 0, GestureType.none, t0 + 33 * ((11 : ℕ) : ℤ), some GestureType.fist⟩ := by
    rw [hsucc 11, e11, show (if 11 % 2 = 0 then A else B) = B from by norm_num]
    rw [gstep_newPending ([GestureType.peace, GestureType.fist, GestureType.peace, GestureType.fist, GestureType.peace, GestureType.fist, GestureType.peace, GestureType.fist, GestureType.peace, GestureType.fist]) 0 GestureType.none (t0 + 33 * ((10 : ℕ) : ℤ)) (some GestureType.peace) B (t0 + 33 * ((11 : ℕ) : ℤ)) GestureType.peace GestureType.fist
      hB hrawB (by decide) (by decide) (by decide)]
    simp [pushHist, CONFIG_transitions]
  have e13 : GestureDetector.seq (fun n => if n % 2 = 0 then A else B)
      (fun n => t0 + 33 * n) 13 = ⟨[GestureType.peace, GestureType.fist, GestureType.peace, GestureType.fist, GestureType.peace, GestureType.fist, GestureType.peace, GestureType.fist, GestureType.peace, GestureType.fist], 0, GestureType.none, t0 + 33 * ((12 : ℕ) : ℤ), some GestureType.peace⟩ := by
    rw [hsucc 12, e12, show (if 12 % 2 = 0 then A else B) = A from by norm_num]
    rw [gstep_newPending ([GestureType.fist, GestureType.peace, GestureType.fist, GestureType.peace, GestureType.fist, GestureType.peace, GestureType.fist, GestureType.peace, GestureType.fist, GestureType.peace]) 0 GestureType.none (t0 + 33 * ((11 : ℕ) : ℤ)) (some GestureType.fist) A (t0 + 33 * ((12 : ℕ) : ℤ)) GestureType.fist GestureType.peace
      hA hrawA (by decide) (by decide) (by decide)]
    simp [pushHist, CONFIG_transitions]
  have e14 : GestureDetector.seq (fun n => if n % 2 = 0 then A else B)
      (fun n => t0 + 33 * n) 14 = ⟨[GestureType.fist, GestureType.peace, GestureType.fist, GestureType.peace, GestureType.fist, GestureType.peace, GestureType.fist, GestureType.peace, GestureType.fist, GestureType.peace], 0, GestureType.none, t0 + 33 * ((13 : ℕ) : ℤ), some GestureType.fist⟩ := by
    rw [hsucc 13, e13, show (if 13 % 2 = 0 then A else B) = B from by norm_num]
    rw [gstep_newPending ([GestureType.peace, GestureType.fist, GestureType.peace, GestureType.fist, GestureType.peace, GestureType.fist, GestureType.peace, GestureType.fist, GestureType.peace, GestureType.fist]) 0 GestureType.none (t0 + 33 * ((12 : ℕ) : ℤ)) (some GestureType.peace) B (t0 + 33 * ((13 : ℕ) : ℤ)) GestureType.peace GestureType.fist
      hB hrawB (by decide) (by decide) (by decide)]
    simp [pushHist, CONFIG_transitions]
  have e15 : GestureDetector.seq (fun n => if n % 2 = 0 then A else B)
      (fun n => t0 + 33 * n) 15 = ⟨[GestureType.peace, GestureType.fist, GestureType.peace, GestureType.fist, GestureType.peace, GestureType.fist, GestureType.peace, GestureType.fist, GestureType.peace, GestureType.fist], 0, GestureType.none, t0 + 33 * ((14 : ℕ) : ℤ), some GestureType.peace⟩ := by
    rw [hsucc 14, e14, show (if 14 % 2 = 0 then A else B) = A from by norm_num]
    rw [gstep_newPending ([GestureType.fist, GestureType.peace, GestureType.fist, GestureType.peace, GestureType.fist, GestureType.peace, GestureType.fist, GestureType.peace, GestureType.fist, GestureType.peace]) 0 GestureType.none (t0 + 33 * ((13 : ℕ) : ℤ)) (some GestureType.fist) A (t0 + 33 * ((14 : ℕ) : ℤ)) GestureType.fist GestureType.peace
      hA hrawA (by decide) (by decide) (by decide)]
    simp [pushHist, CONFIG_transitions]
  have e16 : GestureDetector.seq (fun n => if n % 2 = 0 then A else B)
      (fun n => t0 + 33 * n) 16 = ⟨[GestureType.fist, GestureType.peace, GestureType.fist, GestureType.peace, GestureType.fist, GestureType.peace, GestureType.fist, GestureType.peace, GestureType.fist, GestureType.peace], 0, GestureType.none, t0 + 33 * ((15 : ℕ) : ℤ), some GestureType.fist⟩ := by
    rw [hsucc 15, e15, show (if 15 % 2 = 0 then A else B) = B from by norm_num]
    rw [gstep_newPending ([GestureType.peace, GestureType.fist, GestureType.peace, GestureType.fist, GestureType.peace, GestureType.fist, GestureType.peace, GestureType.fist, GestureType.peace, GestureType.fist]) 0 GestureType.none (t0 + 33 * ((14 : ℕ) : ℤ)) (some GestureType.peace) B (t0 + 33 * ((15 : ℕ) : ℤ)) GestureType.peace GestureType.fist
      hB hrawB (by decide) (by decide) (by decide)]
    simp [pushHist, CONFIG_transitions]
  have e17 : GestureDetector.seq (fun n => if n % 2 = 0 then A else B)
      (fun n => t0 + 33 * n) 17 = ⟨[GestureType.peace, GestureType.fist, GestureType.peace, GestureType.fist, GestureType.peace, GestureType.fist, GestureType.peace, GestureType.fist, GestureType.peace, GestureType.fist], 0, GestureType.none, t0 + 33 * ((16 : ℕ) : ℤ), some GestureType.peace⟩ := by
    rw [hsucc 16, e16, show (if 16 % 2 = 0 then A else B) = A from by norm_num]
    rw [gstep_newPending ([GestureType.fist, GestureType.peace, GestureType.fist, GestureType.peace, GestureType.fist, GestureType.peace, GestureType.fist, GestureType.peace, GestureType.fist, GestureType.peace]) 0 GestureType.none (t0 + 33 * ((15 : ℕ) : ℤ)) (some GestureType.fist) A (t0 + 33 * ((16 : ℕ) : ℤ)) GestureType.fist GestureType.peace
      hA hrawA (by decide) (by decide) (by decide)]
    simp [pushHist, CONFIG_transitions]
  have e18 : GestureDetector.seq (fun n => if n % 2 = 0 then A else B)
      (fun n => t0 + 33 * n) 18 = ⟨[GestureType.fist, GestureType.peace, GestureType.fist, GestureType.peace, GestureType.fist, GestureType.peace, GestureType.fist, GestureType.peace, GestureType.fist, GestureType.peace], 0, GestureType.none, t0 + 33 * ((17 : ℕ) : ℤ), some GestureType.fist⟩ := by
    rw [hsucc 17, e17, show (if 17 % 2 = 0 then A else B) = B from by norm_num]
    rw [gstep_newPending ([GestureType.peace, GestureType.fist, GestureType.peace, GestureType.fist, GestureType.peace, GestureType.fist, GestureType.peace, GestureType.fist, GestureType.peace, GestureType.fist]) 0 GestureType.none (t0 + 33 * ((16 : ℕ) : ℤ)) (some GestureType.peace) B (t0 + 33 * ((17 : ℕ) : ℤ)) GestureType.peace GestureType.fist
      hB hrawB (by decide) (by decide) (by decide)]
    simp [pushHist, CONFIG_transitions]
  have e19 : GestureDetector.seq (fun n => if n % 2 = 0 then A else B)
      (fun n => t0 + 33 * n) 19 = ⟨[GestureType.peace, GestureType.fist, GestureType.peace, GestureType.fist, GestureType.peace, GestureType.fist, GestureType.peace, GestureType.fist, GestureType.peace, GestureType.fist], 0, GestureType.none, t0 + 33 * ((18 : ℕ) : ℤ), some GestureType.peace⟩ := by
    rw [hsucc 18, e18, show (if 18 % 2 = 0 then A else B) = A from by norm_num]
    rw [gstep_newPending ([GestureType.fist, GestureType.peace, GestureType.fist, GestureType.peace, GestureType.fist, GestureType.peace, GestureType.fist, GestureType.peace, GestureType.fist, GestureType.peace]) 0 GestureType.none (t0 + 33 * ((17 : ℕ) : ℤ)) (some GestureType.fist) A (t0 + 33 * ((18 : ℕ) : ℤ)) GestureType.fist GestureType.peace
      hA hrawA (by decide) (by decide) (by decide)]
    simp [pushHist, CONFIG_transitions]
  have e20 : GestureDetector.seq (fun n => if n % 2 = 0 then A else B)
      (fun n => t0 + 33 * n) 20 = ⟨[GestureType.fist, GestureType.peace, GestureType.fist, GestureType.peace, GestureType.fist, GestureType.peace, GestureType.fist, GestureType.peace, GestureType.fist, GestureType.peace], 0, GestureType.none, t0 + 33 * ((19 : ℕ) : ℤ), some GestureType.fist⟩ := by
    rw [hsucc 19, e19, show (if 19 % 2 = 0 then A else B) = B from by norm_num]
    rw [gstep_newPending ([GestureType.peace, GestureType.fist, GestureType.peace, GestureType.fist, GestureType.peace, GestureType.fist, GestureType.peace, GestureType.fist, GestureType.peace, GestureType.fist]) 0 GestureType.none (t0 + 33 * ((18 : ℕ) : ℤ)) (some GestureType.peace) B (t0 + 33 * ((19 : ℕ) : ℤ)) GestureType.peace GestureType.fist
      hB hrawB (by decide) (by decide) (by decide)]
    simp [pushHist, CONFIG_transitions]
  intro k hk
  interval_cases k
  · rw [e0]
  · rw [e1]
  · rw [e2]
  · rw [e3]
  · rw [e4]
  · rw [e5]
  · rw [e6]
  · rw [e7]
  · rw [e8]
  · rw [e9]
  · rw [e10]
  · rw [e11]
  · rw [e12]
  · rw [e13]
  · rw [e14]
  · rw [e15]
  · rw [e16]
  · rw [e17]
  · rw [e18]
  · rw [e19]
  · rw [e20]

/-- C2: on both detectors, `current` changes at a call only if the committed value
was set pending at an earlier call, stayed continuously pending since, was held at
least `holdTime` (300 ms), and every earlier switch lies at least `debounce` (500 ms)
in the past; hence no two switches happen within `debounce` of each other. -/
theorem C2_hold_and_debounce :
    (∀ (f : ℕ → List Landmark) (t : ℕ → ℤ) (n : ℕ),
      (GestureDetector.seq f t (n + 1)).current ≠ (GestureDetector.seq f t n).current →
      (∃ i, i < n ∧
        (GestureDetector.seq f t i).pending ≠
          some ((GestureDetector.seq f t (n + 1)).current) ∧
        (∀ k, i < k → k ≤ n →
          (GestureDetector.seq f t k).pending =
            some ((GestureDetector.seq f t (n + 1)).current)) ∧
        CONFIG_transitions.holdTime ≤ t n - t i) ∧
      (∀ m, m < n →
        (GestureDetector.seq f t (m + 1)).current ≠ (GestureDetector.seq f t m).current →
        CONFIG_transitions.debounce ≤ t n - t m)) ∧
    (∀ (f : ℕ → List Landmark) (t : ℕ → ℤ) (n : ℕ),
      (ExpressionDetector.seq f t (n + 1)).current ≠ (ExpressionDetector.seq f t n).current →
      (∃ i, i < n ∧
        (ExpressionDetector.seq f t i).pending ≠
          some ((ExpressionDetector.seq f t (n + 1)).current) ∧
        (∀ k, i < k → k ≤ n →
          (ExpressionDetector.seq f t k).pending =
            some ((ExpressionDetector.seq f t (n + 1)).current)) ∧
        CONFIG_transitions.holdTime ≤ t n - t i) ∧
      (∀ m, m < n →
        (ExpressionDetector.seq f t (m + 1)).current ≠ (ExpressionDetector.seq f t m).current →
        CONFIG_transitions.debounce ≤ t n - t m)) :=
  ⟨fun f t n hc => stabSeq_spec 21 GestureType.none GestureDetector.rawGesture f t n hc,
   fun f t n hc =>
     stabSeq_spec 468 ExpressionType.neutral ExpressionDetector.rawExpression f t n hc⟩

/-- Witness for C2: a constant-`fist` stream at 50 ms spacing commits its first switch
at call 6 (hold satisfied at 300 ms, debounce against the initial timestamp 0
satisfied), and the debounce conclusion holds there. -/
theorem C2_witness :
    ((GestureDetector.seq (fun _ => fistLms) (fun k => 1000 + 50 * k) 7).current ≠
      (GestureDetector.seq (fun _ => fistLms) (fun k => 1000 + 50 * k) 6).current) ∧
    (∃ i, i < 6 ∧
      (GestureDetector.seq (fun _ => fistLms) (fun k => 1000 + 50 * k) i).pending ≠
        some ((GestureDetector.seq (fun _ => fistLms) (fun k => 1000 + 50 * k) 7).current) ∧
      (∀ k, i < k → k ≤ 6 →
        (GestureDetector.seq (fun _ => fistLms) (fun k => 1000 + 50 * k) k).pending =
          some ((GestureDetector.seq (fun _ => fistLms) (fun k => 1000 + 50 * k) 7).current)) ∧
      CONFIG_transitions.holdTime ≤ (1000 + 50 * (6 : ℤ)) - (1000 + 50 * (i : ℤ))) ∧
    (∀ m, m < 6 →
      (GestureDetector.seq (fun _ => fistLms) (fun k => 1000 + 50 * k) (m + 1)).current ≠
        (GestureDetector.seq (fun _ => fistLms) (fun k => 1000 + 50 * k) m).current →
      CONFIG_transitions.debounce ≤ (1000 + 50 * (6 : ℤ)) - (1000 + 50 * (m : ℤ))) := by
  have e0 : GestureDetector.seq (fun _ => fistLms) (fun k => 1000 + 50 * k) 0 =
      ⟨[], 0, GestureType.none, 0, Option.none⟩ := rfl
  have hsucc : ∀ n, GestureDetector.seq (fun _ => fistLms) (fun k => 1000 + 50 * k)
      (n + 1) =
      (stabAnalyze 21 GestureType.none GestureDetector.rawGesture
        (GestureDetector.seq (fun _ => fistLms) (fun k => 1000 + 50 * k) n)
        fistLms (1000 + 50 * ((n : ℕ) : ℤ))).1 := fun _ => rfl
  have hlen : 21 ≤ fistLms.length := by norm_num [fistLms_length]
  have hraw := congrArg RawResult.category rawGesture_fist
  have e1 : GestureDetector.seq (fun _ => fistLms) (fun k => 1000 + 50 * k)
      1 = ⟨[GestureType.fist], 0, GestureType.none, 1000 + 50 * ((0 : ℕ) : ℤ), some GestureType.fist⟩ := by
    rw [hsucc 0, e0]
    rw [gstep_newPending [] 0 GestureType.none 0 Option.none fistLms (1000 + 50 * ((0 : ℕ) : ℤ)) GestureType.fist GestureType.fist
      hlen hraw (by decide) (by decide) (by decide)]
    simp [pushHist, CONFIG_transitions]
  have e2 : GestureDetector.seq (fun _ => fistLms) (fun k => 1000 + 50 * k)
      2 = ⟨[GestureType.fist, GestureType.fist], 0, GestureType.none, 1000 + 50 * ((0 : ℕ) : ℤ), some GestureType.fist⟩ := by
    rw [hsucc 1, e1]
    rw [gstep_holdFail [GestureType.fist] 0 GestureType.none (1000 + 50 * ((0 : ℕ) : ℤ)) (some GestureType.fist) fistLms (1000 + 50 * ((1 : ℕ) : ℤ)) GestureType.fist GestureType.fist
      hlen hraw (by decide) (by decide) (by decide) (by omega)]
    simp [pushHist, CONFIG_transitions]
  have e3 : GestureDetector.seq (fun _ => fistLms) (fun k => 1000 + 50 * k)
      3 = ⟨[GestureType.fist, GestureType.fist, GestureType.fist], 0, GestureType.none, 1000 + 50 * ((0 : ℕ) : ℤ), some GestureType.fist⟩ := by
    rw [hsucc 2, e2]
    rw [gstep_holdFail ([GestureType.fist, GestureType.fist]) 0 GestureType.none (1000 + 50 * ((0 : ℕ) : ℤ)) (some GestureType.fist) fistLms (1000 + 50 * ((2 : ℕ) : ℤ)) GestureType.fist GestureType.fist
      hlen hraw (by decide) (by decide) (by decide) (by omega)]
    simp [pushHist, CONFIG_transitions]
  have e4 : GestureDetector.seq (fun _ => fistLms) (fun k => 1000 + 50 * k)
      4 = ⟨[GestureType.fist, GestureType.fist, GestureType.fist, GestureType.fist], 0, GestureType.none, 1000 + 50 * ((0 : ℕ) : ℤ), some GestureType.fist⟩ := by
    rw [hsucc 3, e3]
    rw [gstep_holdFail ([GestureType.fist, GestureType.fist, GestureType.fist]) 0 GestureType.none (1000 + 50 * ((0 : ℕ) : ℤ)) (some GestureType.fist) fistLms (1000 + 50 * ((3 : ℕ) : ℤ)) GestureType.fist GestureType.fist
      hlen hraw (by decide) (by decide) (by decide) (by omega)]
    simp [pushHist, CONFIG_transitions]
  have e5 : GestureDetector.seq (fun _ => fistLms) (fun k => 1000 + 50 * k)
      5 = ⟨[GestureType.fist, GestureType.fist, GestureType.fist, GestureType.fist, GestureType.fist], 0, GestureType.none, 1000 + 50 * ((0 : ℕ) : ℤ), some GestureType.fist⟩ := by
    rw [hsucc 4, e4]
    rw [gstep_holdFail ([GestureType.fist, GestureType.fist, GestureType.fist, GestureType.fist]) 0 GestureType.none (1000 + 50 * ((0 : ℕ) : ℤ)) (some GestureType.fist) fistLms (1000 + 50 * ((4 : ℕ) : ℤ)) GestureType.fist GestureType.fist
      hlen hraw (by decide) (by decide) (by decide) (by omega)]
    simp [pushHist, CONFIG_transitions]
  have e6 : GestureDetector.seq (fun _ => fistLms) (fun k => 1000 + 50 * k)
      6 = ⟨[GestureType.fist, GestureType.fist, GestureType.fist, GestureType.fist, GestureType.fist, GestureType.fist], 0, GestureType.none, 1000 + 50 * ((0 : ℕ) : ℤ), some GestureType.fist⟩ := by
    rw [hsucc 5, e5]
    rw [gstep_holdFail ([GestureType.fist, GestureType.fist, GestureType.fist, GestureType.fist, GestureType.fist]) 0 GestureType.none (1000 + 50 * ((0 : ℕ) : ℤ)) (some GestureType.fist) fistLms (1000 + 50 * ((5 : ℕ) : ℤ)) GestureType.fist GestureType.fist
      hlen hraw (by decide) (by decide) (by decide) (by omega)]
    simp [pushHist, CONFIG_transitions]
  have e7 : GestureDetector.seq (fun _ => fistLms) (fun k => 1000 + 50 * k)
      7 = ⟨[GestureType.fist, GestureType.fist, GestureType.fist, GestureType.fist, GestureType.fist, GestureType.fist, GestureType.fist], 1000 + 50 * ((6 : ℕ) : ℤ), GestureType.fist, 1000 + 50 * ((0 : ℕ) : ℤ), Option.none⟩ := by
    rw [hsucc 6, e6]
    rw [gstep_commit ([GestureType.fist, GestureType.fist, GestureType.fist, GestureType.fist, GestureType.fist, GestureType.fist]) 0 GestureType.none (1000 + 50 * ((0 : ℕ) : ℤ)) (some GestureType.fist) fistLms (1000 + 50 * ((6 : ℕ) : ℤ)) GestureType.fist GestureType.fist
      hlen hraw (by decide) (by decide) (by decide) (by omega) (by omega)]
    simp [pushHist, CONFIG_transitions]
  have hc : (GestureDetector.seq (fun _ => fistLms) (fun k => 1000 + 50 * k) 7).current ≠
      (GestureDetector.seq (fun _ => fistLms) (fun k => 1000 + 50 * k) 6).current := by
    rw [e7, e6]
    decide
  have hmain := C2_hold_and_debounce.1 (fun _ => fistLms) (fun k => 1000 + 50 * k) 6 hc
  refine ⟨hc, ?_, ?_⟩
  · obtain ⟨i, hi, hnot, hall, hhold⟩ := hmain.1
    exact ⟨i, hi, hnot, hall, by push_cast at hhold ⊢; omega⟩
  · intro m hm hcm
    have := hmain.2 m hm hcm
    push_cast at this ⊢
    omega

/-- C3 (amended): the length guards in the code are 468 for the face detector and 21
for the hand detector (not 478 for the face as the claim states): every shorter
landmark set makes `analyze` return the default category at confidence exactly 0.
The 478 face bound of the claim as stated is refuted by `C3_counterexample`. -/
theorem C3_short_input_default :
    (∀ (s : StabState ExpressionType) (lms : List Landmark) (now : ℤ), lms.length < 468 →
      (ExpressionDetector.analyze s lms now).2 = ⟨ExpressionType.neutral, 0⟩) ∧
    (∀ (s : StabState GestureType) (lms : List Landmark) (now : ℤ), lms.length < 21 →
      (GestureDetector.analyze s lms now).2 = ⟨GestureType.none, 0⟩) :=
  ⟨fun _ _ _ h => by rw [ExpressionDetector.analyze, stabAnalyze_short h],
   fun _ _ _ h => by rw [GestureDetector.analyze, stabAnalyze_short h]⟩

/-- Counterexample to C3 as stated: a 470-point face landmark set (fewer than 478
entries, but at least 468) whose rules are evaluated — the tongue rule fires and
`analyze` returns confidence 1, not 0. -/
theorem C3_counterexample :
    c3lms.length = 470 ∧
    ((ExpressionDetector.analyze (stabInit ExpressionType.neutral) c3lms 0).2).confidence = 1 ∧
    ¬((ExpressionDetector.analyze (stabInit ExpressionType.neutral) c3lms 0).2).confidence
      = 0 := by
  have hconf :
      ((ExpressionDetector.analyze (stabInit ExpressionType.neutral) c3lms 0).2).confidence
        = 1 := by
    rw [ExpressionDetector.analyze, stabAnalyze_confidence,
      if_neg (by rw [c3lms_length]; norm_num), rawExpression_c3]
  exact ⟨c3lms_length, hconf, by rw [hconf]; norm_num⟩

/-- Witness for C3 at the empty landmark list. -/
theorem C3_witness :
    ([] : List Landmark).length < 468 ∧
    (ExpressionDetector.analyze (stabInit ExpressionType.neutral) [] 0).2 =
      ⟨ExpressionType.neutral, 0⟩ ∧
    ([] : List Landmark).length < 21 ∧
    (GestureDetector.analyze (stabInit GestureType.none) [] 0).2 = ⟨GestureType.none, 0⟩ :=
  ⟨by norm_num, C3_short_input_default.1 _ [] 0 (by norm_num), by norm_num,
   C3_short_input_default.2 _ [] 0 (by norm_num)⟩

/-- C9: an `analyze` call with a landmark set shorter than the minimum leaves the
entire stabilizer state unchanged and returns the default category at confidence 0 —
even when the stabilized `current` is some other value. -/
theorem C9_short_input_no_effect :
    (∀ (s : StabState ExpressionType) (lms : List Landmark) (now : ℤ), lms.length < 468 →
      ExpressionDetector.analyze s lms now = (s, ⟨ExpressionType.neutral, 0⟩)) ∧
    (∀ (s : StabState GestureType) (lms : List Landmark) (now : ℤ), lms.length < 21 →
      GestureDetector.analyze s lms now = (s, ⟨GestureType.none, 0⟩)) :=
  ⟨fun _ _ _ h => by rw [ExpressionDetector.analyze, stabAnalyze_short h],
   fun _ _ _ h => by rw [GestureDetector.analyze, stabAnalyze_short h]⟩

/-- Witness for C9 at states whose stabilized `current` is not the default. -/
theorem C9_witness :
    ([] : List Landmark).length < 468 ∧
    ExpressionDetector.analyze ⟨[ExpressionType.happy], 5, ExpressionType.happy, 3,
      some ExpressionType.sad⟩ [] 7 =
      (⟨[ExpressionType.happy], 5, ExpressionType.happy, 3, some ExpressionType.sad⟩,
        ⟨ExpressionType.neutral, 0⟩) ∧
    ([] : List Landmark).length < 21 ∧
    GestureDetector.analyze ⟨[GestureType.wave], 9, GestureType.wave, 2,
      some GestureType.fist⟩ [] 4 =
      (⟨[GestureType.wave], 9, GestureType.wave, 2, some GestureType.fist⟩,
        ⟨GestureType.none, 0⟩) :=
  ⟨by norm_num, C9_short_input_no_effect.1 _ [] 7 (by norm_num), by norm_num,
   C9_short_input_no_effect.2 _ [] 4 (by norm_num)⟩

/-- C4 (amended): every confidence produced by `analyze` is nonnegative; it is at most
1 whenever the firing expression rule is not `disgust`, and gesture confidences always
lie in [0, 1].  The disgust rule's ratio `1 - lipNoseDistance / 0.03` is not clamped
and exceeds 1 exactly when the upper-lip landmark lies below the nose-tip landmark
(negative lip–nose distance), refuting the claim as stated (`C4_counterexample`). -/
theorem C4_confidence_bounds :
    (∀ (s : StabState ExpressionType) (lms : List Landmark) (now : ℤ),
      0 ≤ ((ExpressionDetector.analyze s lms now).2).confidence) ∧
    (∀ (s : StabState ExpressionType) (lms : List Landmark) (now : ℤ),
      (ExpressionDetector.rawExpression lms).category ≠ ExpressionType.disgust →
      ((ExpressionDetector.analyze s lms now).2).confidence ≤ 1) ∧
    (∀ (s : StabState GestureType) (lms : List Landmark) (now : ℤ),
      0 ≤ ((GestureDetector.analyze s lms now).2).confidence ∧
      ((GestureDetector.analyze s lms now).2).confidence ≤ 1) := by
  refine ⟨fun s lms now => ?_, fun s lms now hne => ?_, fun s lms now => ?_⟩
  · rw [ExpressionDetector.analyze, stabAnalyze_confidence]
    split_ifs
    · norm_num
    · exact (rawExpression_conf_bounds lms).1
  · rw [ExpressionDetector.analyze, stabAnalyze_confidence]
    split_ifs
    · norm_num
    · exact (rawExpression_conf_bounds lms).2 hne
  · rw [GestureDetector.analyze, stabAnalyze_confidence]
    split_ifs
    · norm_num
    · exact rawGesture_conf_bounds lms

/-- Counterexample to C4 as stated: on the adversarial face the disgust rule fires and
`analyze` reports confidence 43/3 > 1. -/
theorem C4_counterexample :
    ((ExpressionDetector.analyze (stabInit ExpressionType.neutral) c4lms 0).2).confidence
      = 43 / 3 ∧
    ¬((ExpressionDetector.analyze (stabInit ExpressionType.neutral) c4lms 0).2).confidence
      ≤ 1 := by
  have hconf :
      ((ExpressionDetector.analyze (stabInit ExpressionType.neutral) c4lms 0).2).confidence
        = 43 / 3 := by
    rw [ExpressionDetector.analyze, stabAnalyze_confidence,
      if_neg (by rw [c4lms_length]; norm_num), rawExpression_c4]
  exact ⟨hconf, by rw [hconf]; norm_num⟩

/-- Witness for C4: the empty list classifies raw as `glare` (not disgust), so the
two expression bounds apply there; the gesture bounds apply at the concrete fist
hand. -/
theorem C4_witness :
    (ExpressionDetector.rawExpression []).category ≠ ExpressionType.disgust ∧
    0 ≤ ((ExpressionDetector.analyze (stabInit ExpressionType.neutral) [] 0).2).confidence ∧
    ((ExpressionDetector.analyze (stabInit ExpressionType.neutral) [] 0).2).confidence ≤ 1 ∧
    0 ≤ ((GestureDetector.analyze (stabInit GestureType.none) fistLms 0).2).confidence ∧
    ((GestureDetector.analyze (stabInit GestureType.none) fistLms 0).2).confidence ≤ 1 :=
  ⟨by rw [rawExpression_nil]; decide,
   C4_confidence_bounds.1 _ [] 0,
   C4_confidence_bounds.2.1 _ [] 0 (by rw [rawExpression_nil]; decide),
   (C4_confidence_bounds.2.2 _ fistLms 0).1,
   (C4_confidence_bounds.2.2 _ fistLms 0).2⟩

lemma firstSome_none {β : Type} :
    ∀ l : List (Option β), (∀ o ∈ l, o = Option.none) → firstSome l = Option.none := by
  intro l
  induction l with
  | nil => intro _; rfl
  | cons o rest ih =>
    intro h
    have ho := h o (List.mem_cons_self _ _)
    subst ho
    simp only [firstSome]
    exact ih fun o ho => h o (List.mem_cons_of_mem _ ho)

/-- C5: the raw per-frame classification is first-match over the fixed priority lists
`gestureRules` (middle-finger, thumbs-up, thumbs-down, peace, OK, rock-on, pointing,
wave, fist) and `expressionRules` (scream, shock, tongue, kissy, happy, wink, sad,
glare, suspicious, sleepy, eyebrow-raise, pout, disgust, confused): whenever rule `i`
fires and no earlier rule fires, the result is rule `i`'s output regardless of any
later rule; and when no rule fires the result is the default category at
confidence 0. -/
theorem C5_priority_first_match :
    (∀ (lms : List Landmark) (i : ℕ) (hi : i < GestureDetector.gestureRules.length),
      (GestureDetector.gestureRules.get ⟨i, hi⟩) lms ≠ Option.none →
      (∀ k (hk : k < i),
        (GestureDetector.gestureRules.get ⟨k, lt_trans hk hi⟩) lms = Option.none) →
      some (GestureDetector.rawGesture lms) = (GestureDetector.gestureRules.get ⟨i, hi⟩) lms) ∧
    (∀ lms : List Landmark, (∀ d ∈ GestureDetector.gestureRules, d lms = Option.none) →
      GestureDetector.rawGesture lms = ⟨GestureType.none, 0⟩) ∧
    (∀ (lms : List Landmark) (i : ℕ) (hi : i < ExpressionDetector.expressionRules.length),
      (ExpressionDetector.expressionRules.get ⟨i, hi⟩) lms ≠ Option.none →
      (∀ k (hk : k < i),
        (ExpressionDetector.expressionRules.get ⟨k, lt_trans hk hi⟩) lms = Option.none) →
      some (ExpressionDetector.rawExpression lms) =
        (ExpressionDetector.expressionRules.get ⟨i, hi⟩) lms) ∧
    (∀ lms : List Landmark, (∀ d ∈ ExpressionDetector.expressionRules, d lms = Option.none) →
      ExpressionDetector.rawExpression lms = ⟨ExpressionType.neutral, 0⟩) := by
  refine ⟨fun lms i hi hfire hmin => ?_, fun lms hnone => ?_,
    fun lms i hi hfire hmin => ?_, fun lms hnone => ?_⟩
  · have hi2 : i < (GestureDetector.gestureRules.map (fun d => d lms)).length := by
      simpa using hi
    have hget : ∀ (k : ℕ) (hk : k < GestureDetector.gestureRules.length),
        (GestureDetector.gestureRules.map (fun d => d lms)).get ⟨k, by simpa using hk⟩ =
          (GestureDetector.gestureRules.get ⟨k, hk⟩) lms := by
      intro k hk
      simp [List.getElem_map]
    have heq := firstSome_eq_of_minimal (GestureDetector.gestureRules.map (fun d => d lms))
      i hi2 (fun k hk => by rw [hget k (lt_trans hk hi)]; exact hmin k hk)
      (by rw [hget i hi]; exact hfire)
    rw [GestureDetector.rawGesture, heq, hget i hi]
    obtain ⟨x, hx⟩ := Option.ne_none_iff_exists.mp hfire
    rw [← hx]
    rfl
  · rw [GestureDetector.rawGesture, firstSome_none]
    · rfl
    · intro o ho
      obtain ⟨d, hd, rfl⟩ := List.mem_map.mp ho
      exact hnone d hd
  · have hi2 : i < (ExpressionDetector.expressionRules.map (fun d => d lms)).length := by
      simpa using hi
    have hget : ∀ (k : ℕ) (hk : k < ExpressionDetector.expressionRules.length),
        (ExpressionDetector.expressionRules.map (fun d => d lms)).get ⟨k, by simpa using hk⟩ =
          (ExpressionDetector.expressionRules.get ⟨k, hk⟩) lms := by
      intro k hk
      simp [List.getElem_map]
    have heq := firstSome_eq_of_minimal (ExpressionDetector.expressionRules.map (fun d => d lms))
      i hi2 (fun k hk => by rw [hget k (lt_trans hk hi)]; exact hmin k hk)
      (by rw [hget i hi]; exact hfire)
    rw [ExpressionDetector.rawExpression, heq, hget i hi]
    obtain ⟨x, hx⟩ := Option.ne_none_iff_exists.mp hfire
    rw [← hx]
    rfl
  · rw [ExpressionDetector.rawExpression, firstSome_none]
    · rfl
    · intro o ho
      obtain ⟨d, hd, rfl⟩ := List.mem_map.mp ho
      exact hnone d hd

/-- Witness for C5: the concrete hand satisfies both the OK rule (priority index 4)
and the wave rule (index 7); the classification is `ok`, the earlier rule.  On the
expression side the 470-point face fires the tongue rule (index 2) with scream and
shock silent, and the classification is `tongue`. -/
theorem C5_witness :
    GestureDetector.detectOK okWaveLms = some ⟨GestureType.ok, 0.85⟩ ∧
    GestureDetector.detectWave okWaveLms = some ⟨GestureType.wave, 0.8⟩ ∧
    some (GestureDetector.rawGesture okWaveLms) =
      (GestureDetector.gestureRules.get ⟨4, by norm_num [GestureDetector.gestureRules]⟩)
        okWaveLms ∧
    some (ExpressionDetector.rawExpression c3lms) =
      (ExpressionDetector.expressionRules.get
        ⟨2, by norm_num [ExpressionDetector.expressionRules]⟩) c3lms := by
  refine ⟨detectOK_okWave, detectWave_okWave, ?_, ?_⟩
  · refine C5_priority_first_match.1 okWaveLms 4 _ ?_ ?_
    · show GestureDetector.detectOK okWaveLms ≠ Option.none
      rw [detectOK_okWave]
      simp
    · intro k hk
      interval_cases k
      · exact detectMiddleFinger_okWave
      · exact detectThumbsUp_okWave
      · exact detectThumbsDown_okWave
      · exact detectPeace_okWave
  · refine C5_priority_first_match.2.2.1 c3lms 2 _ ?_ ?_
    · show ExpressionDetector.detectTongue c3lms ≠ Option.none
      rw [detectTongue_c3]
      simp
    · intro k hk
      interval_cases k
      · exact detectScream_c3
      · exact detectShock_c3

/-- C6: `reset()` restores a detector to the freshly constructed state (empty history,
default category, cleared pending candidate, zeroed timers), so every subsequent
sequence of `analyze` calls returns exactly the same results as on a fresh instance. -/
theorem C6_reset_equals_fresh :
    (∀ s : StabState ExpressionType,
      ExpressionDetector.reset s = stabInit ExpressionType.neutral) ∧
    (∀ (s : StabState ExpressionType) (inputs : List (List Landmark × ℤ)),
      ExpressionDetector.run (ExpressionDetector.reset s) inputs =
        ExpressionDetector.run (stabInit ExpressionType.neutral) inputs) ∧
    (∀ s : StabState GestureType, GestureDetector.reset s = stabInit GestureType.none) ∧
    (∀ (s : StabState GestureType) (inputs : List (List Landmark × ℤ)),
      GestureDetector.run (GestureDetector.reset s) inputs =
        GestureDetector.run (stabInit GestureType.none) inputs) :=
  ⟨fun _ => rfl, fun _ _ => rfl, fun _ => rfl, fun _ _ => rfl⟩

/-- C7: for a category whose pool holds at least 4 distinct assets, along every call
sequence from process start and under every outcome of the random draws, no asset is
returned twice within any 3 consecutive calls for that category; each recent buffer
never exceeds 3 entries, and the buffer for the category is exactly the last three
picks (FIFO eviction). -/
theorem C7_no_repeat_within_three
    (pool : DetectionType → List String) (c : DetectionType)
    (hnd : (pool c).Nodup) (h4 : 4 ≤ (pool c).length)
    (inputs : List (DetectionType × ℚ))
    (hr : ∀ p ∈ inputs, 0 ≤ p.2 ∧ p.2 < 1) :
    (∀ i j x y, i < j → j ≤ i + 2 →
      (picksFor pool c emptyRecent inputs)[i]? = some x →
      (picksFor pool c emptyRecent inputs)[j]? = some y → x ≠ y) ∧
    (∀ d, ((runMemes pool emptyRecent inputs) d).length ≤ RECENT_HISTORY_SIZE) ∧
    runMemes pool emptyRecent inputs c =
      lastThree (pickList pool c emptyRecent inputs) := by
  have hne : (pool c).length ≠ 0 := by omega
  have hinv : emptyRecent c = lastThree ([] : List String) := by
    simp [emptyRecent, lastThree]
  have hspec := pickList_spec pool c hnd h4 inputs emptyRecent [] hr hinv
  have hmap := picksFor_eq_map pool c hne inputs emptyRecent
  refine ⟨?_, ?_, ?_⟩
  · intro i j x y hij hj2 hx hy
    rw [hmap, List.getElem?_map] at hx hy
    obtain ⟨px, hpx, rfl⟩ := Option.map_eq_some'.mp hx
    obtain ⟨py, hpy, rfl⟩ := Option.map_eq_some'.mp hy
    intro hcon
    have hpxy : px = py := Option.some.inj hcon
    subst hpxy
    have hnotin := hspec.2 j px hpy
    apply hnotin
    rw [List.nil_append]
    have hjlen : j < (pickList pool c emptyRecent inputs).length :=
      (List.getElem?_eq_some_iff.mp hpy).1
    have hilen : i < (pickList pool c emptyRecent inputs).length := by omega
    have hgetelem : (pickList pool c emptyRecent inputs).get ⟨i, hilen⟩ = px := by
      rw [List.getElem?_eq_getElem hilen] at hpx
      exact Option.some.inj hpx
    have htakelen : ((pickList pool c emptyRecent inputs).take j).length = j := by
      rw [List.length_take]
      omega
    have h1 : i < ((pickList pool c emptyRecent inputs).take j).length := by
      rw [htakelen]
      omega
    have h2 : ((pickList pool c emptyRecent inputs).take j).length ≤ i + 3 := by
      rw [htakelen]
      omega
    have h3 := mem_lastThree_of_index _ i h1 h2
    have h4g : ((pickList pool c emptyRecent inputs).take j).get ⟨i, h1⟩ = px := by
      have h5 : ((pickList pool c emptyRecent inputs).take j).get ⟨i, h1⟩ =
          (pickList pool c emptyRecent inputs).get ⟨i, hilen⟩ := by
        simp [List.getElem_take]
      rw [h5, hgetelem]
    rw [h4g] at h3
    exact h3
  · intro d
    exact runMemes_length_le pool inputs emptyRecent (fun e => by simp [emptyRecent]) d
  · simpa using hspec.1

/-- Witness for C7: a four-asset fist pool served three consecutive fist calls with
draws 0, 0, 1/2. -/
theorem C7_witness :
    ((fun d => if d = DetectionType.gest GestureType.fist then ["a", "b", "c", "d"]
      else ([] : List String)) (DetectionType.gest GestureType.fist)).Nodup ∧
    4 ≤ ((fun d => if d = DetectionType.gest GestureType.fist then ["a", "b", "c", "d"]
      else ([] : List String)) (DetectionType.gest GestureType.fist)).length ∧
    (∀ p ∈ [(DetectionType.gest GestureType.fist, (0 : ℚ)),
        (DetectionType.gest GestureType.fist, 0), (DetectionType.gest GestureType.fist, 1/2)],
      0 ≤ p.2 ∧ p.2 < 1) ∧
    (∀ i j x y, i < j → j ≤ i + 2 →
      (picksFor (fun d => if d = DetectionType.gest GestureType.fist then ["a", "b", "c", "d"]
          else ([] : List String)) (DetectionType.gest GestureType.fist) emptyRecent
        [(DetectionType.gest GestureType.fist, (0 : ℚ)),
         (DetectionType.gest GestureType.fist, 0),
         (DetectionType.gest GestureType.fist, 1/2)])[i]? = some x →
      (picksFor (fun d => if d = DetectionType.gest GestureType.fist then ["a", "b", "c", "d"]
          else ([] : List String)) (DetectionType.gest GestureType.fist) emptyRecent
        [(DetectionType.gest GestureType.fist, (0 : ℚ)),
         (DetectionType.gest GestureType.fist, 0),
         (DetectionType.gest GestureType.fist, 1/2)])[j]? = some y → x ≠ y) := by
  have hnd : ((fun d => if d = DetectionType.gest GestureType.fist then ["a", "b", "c", "d"]
      else ([] : List String)) (DetectionType.gest GestureType.fist)).Nodup := by
    decide
  have h4 : 4 ≤ ((fun d => if d = DetectionType.gest GestureType.fist
      then ["a", "b", "c", "d"]
      else ([] : List String)) (DetectionType.gest GestureType.fist)).length := by
    decide
  have hr : ∀ p ∈ [(DetectionType.gest GestureType.fist, (0 : ℚ)),
      (DetectionType.gest GestureType.fist, 0), (DetectionType.gest GestureType.fist, 1/2)],
      0 ≤ p.2 ∧ p.2 < 1 := by
    intro p hp
    fin_cases hp <;> norm_num
  exact ⟨hnd, h4, hr,
    (C7_no_repeat_within_three _ _ hnd h4 _ hr).1⟩

/-- C8: `select` on a category with an empty asset list substitutes the neutral pool:
when the neutral list is non-empty the call always returns one of its assets (and
leaves the buffers untouched); when the neutral list is empty too, it returns `none`
rather than signalling an error. -/
theorem C8_empty_pool_fallback
    (pool recent : DetectionType → List String) (c : DetectionType) (r : ℚ)
    (hc : pool c = []) (h0 : 0 ≤ r) (h1 : r < 1) :
    (pool neutralKey ≠ [] →
      ∃ m ∈ pool neutralKey, getRandomMeme pool recent c r = (some m, recent)) ∧
    (pool neutralKey = [] → getRandomMeme pool recent c r = (Option.none, recent)) := by
  have hlen : (pool c).length = 0 := by rw [hc]; rfl
  obtain ⟨hsnd, hfst⟩ := @getRandomMeme_fallback pool recent c r hlen
  constructor
  · intro hne
    have hpos : 0 < (pool neutralKey).length := List.length_pos.mpr hne
    refine ⟨(pool neutralKey).getD (randIndex r (pool neutralKey).length) "", ?_, ?_⟩
    · rw [List.getD_eq_getElem _ _ (randIndex_lt h0 h1 hpos)]
      exact List.getElem_mem _
    · have hpair : getRandomMeme pool recent c r =
          ((getRandomMeme pool recent c r).1, (getRandomMeme pool recent c r).2) := rfl
      rw [hpair, hsnd, hfst, if_pos hpos]
  · intro hne
    have hpos : ¬0 < (pool neutralKey).length := by rw [hne]; norm_num
    have hpair : getRandomMeme pool recent c r =
        ((getRandomMeme pool recent c r).1, (getRandomMeme pool recent c r).2) := rfl
    rw [hpair, hsnd, hfst, if_neg hpos]

/-- Witness for C8: a two-asset neutral pool serves the fallback for an empty fist
pool, and the all-empty pool yields `none`. -/
theorem C8_witness :
    ((fun d => if d = neutralKey then ["n1", "n2"] else ([] : List String))
      (DetectionType.gest GestureType.fist) = []) ∧
    (∃ m ∈ (fun d => if d = neutralKey then ["n1", "n2"] else ([] : List String)) neutralKey,
      getRandomMeme (fun d => if d = neutralKey then ["n1", "n2"] else ([] : List String))
        emptyRecent (DetectionType.gest GestureType.fist) 0 = (some m, emptyRecent)) ∧
    getRandomMeme (fun _ => ([] : List String)) emptyRecent
      (DetectionType.gest GestureType.fist) 0 = (Option.none, emptyRecent) := by
  have hc : (fun d => if d = neutralKey then ["n1", "n2"] else ([] : List String))
      (DetectionType.gest GestureType.fist) = [] := by decide
  refine ⟨hc, ?_, ?_⟩
  · exact (C8_empty_pool_fallback
      (fun d => if d = neutralKey then ["n1", "n2"] else ([] : List String)) emptyRecent
      (DetectionType.gest GestureType.fist) 0 hc (by norm_num) (by norm_num)).1
      (by decide)
  · exact (C8_empty_pool_fallback (fun _ => ([] : List String)) emptyRecent
      (DetectionType.gest GestureType.fist) 0 rfl (by norm_num) (by norm_num)).2 rfl

/-- C10: a fallback call (empty pool for the requested category) consults no recent
buffer (its result is the same for every buffer state), updates no buffer, and every
member of the entire neutral pool is a possible outcome — so the no-immediate-repeat
guarantee does not apply to fallback picks. -/
theorem C10_fallback_ignores_buffers
    (pool recent : DetectionType → List String) (c : DetectionType) (r : ℚ)
    (hc : pool c = []) :
    (getRandomMeme pool recent c r).2 = recent ∧
    (∀ recent2, (getRandomMeme pool recent2 c r).1 = (getRandomMeme pool recent c r).1) ∧
    (∀ k, k < (pool neutralKey).length →
      ∃ q, 0 ≤ q ∧ q < 1 ∧ (getRandomMeme pool recent c q).1 = (pool neutralKey)[k]?) := by
  have hlen : (pool c).length = 0 := by rw [hc]; rfl
  refine ⟨(@getRandomMeme_fallback pool recent c r hlen).1, ?_, ?_⟩
  · intro recent2
    rw [(@getRandomMeme_fallback pool recent c r hlen).2,
      (@getRandomMeme_fallback pool recent2 c r hlen).2]
  · intro k hk
    have hnpos : 0 < (pool neutralKey).length := by omega
    have hnq : ((pool neutralKey).length : ℚ) ≠ 0 := by
      exact_mod_cast hnpos.ne'
    refine ⟨(k : ℚ) / ((pool neutralKey).length : ℚ), by positivity, ?_, ?_⟩
    · rw [div_lt_one (by exact_mod_cast hnpos)]
      exact_mod_cast hk
    · rw [(@getRandomMeme_fallback pool recent c _ hlen).2, if_pos hnpos]
      have hidx : randIndex ((k : ℚ) / ((pool neutralKey).length : ℚ))
          (pool neutralKey).length = k := by
        rw [randIndex, div_mul_cancel₀ _ hnq]
        simp [Int.floor_natCast]
      rw [hidx, List.getD_eq_getElem _ _ hk, List.getElem?_eq_getElem hk]

/-- Witness for C10 at a concrete pool with an empty fist list, a nonempty buffer, and
a two-asset neutral pool. -/
theorem C10_witness :
    ((fun d => if d = neutralKey then ["n1", "n2"] else ([] : List String))
      (DetectionType.gest GestureType.fist) = []) ∧
    (getRandomMeme (fun d => if d = neutralKey then ["n1", "n2"] else ([] : List String))
      (fun d => if d = DetectionType.gest GestureType.fist then ["x"] else [])
      (DetectionType.gest GestureType.fist) 0).2 =
      (fun d => if d = DetectionType.gest GestureType.fist then ["x"] else []) ∧
    (∀ k, k < ((fun d => if d = neutralKey then ["n1", "n2"] else ([] : List String))
        neutralKey).length →
      ∃ q, 0 ≤ q ∧ q < 1 ∧
        (getRandomMeme (fun d => if d = neutralKey then ["n1", "n2"] else ([] : List String))
          (fun d => if d = DetectionType.gest GestureType.fist then ["x"] else [])
          (DetectionType.gest GestureType.fist) q).1 =
        ((fun d => if d = neutralKey then ["n1", "n2"] else ([] : List String))
          neutralKey)[k]?) := by
  have hc : (fun d => if d = neutralKey then ["n1", "n2"] else ([] : List String))
      (DetectionType.gest GestureType.fist) = [] := by decide
  refine ⟨hc, ?_, ?_⟩
  · exact (C10_fallback_ignores_buffers
      (fun d => if d = neutralKey then ["n1", "n2"] else ([] : List String))
      (fun d => if d = DetectionType.gest GestureType.fist then ["x"] else [])
      (DetectionType.gest GestureType.fist) 0 hc).1
  · exact (C10_fallback_ignores_buffers
      (fun d => if d = neutralKey then ["n1", "n2"] else ([] : List String))
      (fun d => if d = DetectionType.gest GestureType.fist then ["x"] else [])
      (DetectionType.gest GestureType.fist) 0 hc).2.2

/-- Witness for C1: the concrete fist and peace hand sets alternating at 33 ms spacing
from time 1700000000000 leave the stabilized gesture at `none` through frame 20. -/
theorem C1_witness :
    21 ≤ fistLms.length ∧ 21 ≤ peaceLms.length ∧
    (GestureDetector.rawGesture fistLms).category = GestureType.fist ∧
    (GestureDetector.rawGesture peaceLms).category = GestureType.peace ∧
    (GestureDetector.seq (fun n => if n % 2 = 0 then fistLms else peaceLms)
      (fun n => 1700000000000 + 33 * n) 20).current = GestureType.none := by
  have hA : 21 ≤ fistLms.length := by norm_num [fistLms_length]
  have hB : 21 ≤ peaceLms.length := by norm_num [peaceLms_length]
  have hrawA : (GestureDetector.rawGesture fistLms).category = GestureType.fist :=
    congrArg RawResult.category rawGesture_fist
  have hrawB : (GestureDetector.rawGesture peaceLms).category = GestureType.peace :=
    congrArg RawResult.category rawGesture_peace
  exact ⟨hA, hB, hrawA, hrawB,
    C1_alternating_fist_peace_keeps_none fistLms peaceLms 1700000000000 hA hB hrawA hrawB
      20 le_rfl⟩
